import Mathlib

/-!
Shallow embedding of the Attention Map backend (Django/Celery service) core:
the event-processing pipeline (`services/processing.py`), the spatio-temporal
clustering engine (`services/clustering.py`), the Celery task-layer clustering
(`tasks/processing.py`), the classification fallback (`services/classification.py`),
the gamification hooks (`services/gamification.py`), the operator status-update
command (`api/routes.py`) and the SSE stream framing (`api/streaming.py`).

Machine integers are modelled as `Int`; timestamps as seconds (`Int`);
geographic coordinates and distances as `ℚ` (the geodesic metric itself is an
abstract parameter `dist`, since no claim depends on the WGS-84 formula).
Fallible external calls (object store, ffmpeg, AI endpoints, Redis) are
modelled as `Except String _` oracles supplied to the pipeline.
-/

/-- Severity constants from `core/models.py` `SeverityChoices`. -/
def SeverityChoices.LOW : Int := 1

/-- `SeverityChoices.MEDIUM` from `core/models.py`. -/
def SeverityChoices.MEDIUM : Int := 2

/-- `SeverityChoices.HIGH` from `core/models.py`. -/
def SeverityChoices.HIGH : Int := 3

/-- `SeverityChoices.CRITICAL` from `core/models.py`. -/
def SeverityChoices.CRITICAL : Int := 4

/-- The `Event` model row (`core/models.py`). Django model-field defaults are
given as Lean default field values; the location `Point` is split into
`locX` (longitude) and `locY` (latitude), srid 4326. -/
structure Event where
  id : Nat
  reporterId : Option Nat := none
  createdAt : Int := 0
  locX : ℚ := 0
  locY : ℚ := 0
  address : String := ""
  description : String := ""
  mediaUrl : String := ""
  mediaType : String := ""
  thumbnailUrl : String := ""
  transcription : String := ""
  category : String := ""
  subcategory : String := ""
  severity : Int := SeverityChoices.LOW
  aiConfidence : Option ℚ := none
  aiReasoning : String := ""
  cluster : Option Nat := none
  status : String := "new"
  reviewedById : Option Nat := none
  reviewedAt : Option Int := none
deriving DecidableEq, Repr

/-- The `EventCluster` model row (`core/models.py`). -/
structure EventCluster where
  id : Nat
  centroidX : ℚ
  centroidY : ℚ
  radiusMeters : Int := 100
  eventCount : Int := 1
  firstEventAt : Int := 0
  lastEventAt : Int := 0
  computedSeverity : Int := SeverityChoices.LOW
deriving DecidableEq, Repr

/-- The persistent store: event rows, cluster rows, and a fresh-id source
standing in for `uuid4` cluster ids. -/
structure DB where
  events : List Event
  clusters : List EventCluster
  nextClusterId : Nat := 0
deriving DecidableEq, Repr

/-- Insertion into a list sorted in ascending order of the key `k`
(models the SQL `ORDER BY` used by the Django querysets). -/
def insertByKey (k : Event → ℚ) (a : Event) : List Event → List Event
  | [] => [a]
  | b :: bs => if k a ≤ k b then a :: b :: bs else b :: insertByKey k a bs

/-- Sort a list of events in ascending order of the key `k`. -/
def sortByKey (k : Event → ℚ) : List Event → List Event
  | [] => []
  | a :: as => insertByKey k a (sortByKey k as)

theorem mem_insertByKey (k : Event → ℚ) (a x : Event) (l : List Event) :
    x ∈ insertByKey k a l ↔ x = a ∨ x ∈ l := by
  induction l with
  | nil => simp [insertByKey]
  | cons b bs ih =>
      by_cases h : k a ≤ k b
      · simp [insertByKey, h]
      · simp [insertByKey, h, ih]
        tauto

theorem sorted_insertByKey (k : Event → ℚ) (a : Event) (l : List Event)
    (h : l.Pairwise (fun x y => k x ≤ k y)) :
    (insertByKey k a l).Pairwise (fun x y => k x ≤ k y) := by
  induction l with
  | nil => simp [insertByKey]
  | cons b bs ih =>
      rcases List.pairwise_cons.mp h with ⟨hb, hbs⟩
      by_cases hab : k a ≤ k b
      · rw [insertByKey, if_pos hab]
        refine List.pairwise_cons.mpr ⟨?_, h⟩
        intro y hy
        rcases List.mem_cons.mp hy with rfl | hy
        · exact hab
        · exact le_trans hab (hb y hy)
      · rw [insertByKey, if_neg hab]
        refine List.pairwise_cons.mpr ⟨?_, ih hbs⟩
        intro y hy
        rcases (mem_insertByKey k a y bs).mp hy with rfl | hy
        · exact le_of_not_le hab
        · exact hb y hy

theorem sorted_sortByKey (k : Event → ℚ) (l : List Event) :
    (sortByKey k l).Pairwise (fun x y => k x ≤ k y) := by
  induction l with
  | nil => simp [sortByKey]
  | cons a as ih => exact sorted_insertByKey k a _ ih

theorem mem_sortByKey (k : Event → ℚ) (x : Event) (l : List Event) :
    x ∈ sortByKey k l ↔ x ∈ l := by
  induction l with
  | nil => simp [sortByKey]
  | cons a as ih => simp [sortByKey, mem_insertByKey, ih]

theorem length_insertByKey (k : Event → ℚ) (a : Event) (l : List Event) :
    (insertByKey k a l).length = l.length + 1 := by
  induction l with
  | nil => simp [insertByKey]
  | cons b bs ih =>
      by_cases h : k a ≤ k b <;> simp [insertByKey, h, ih]

theorem length_sortByKey (k : Event → ℚ) (l : List Event) :
    (sortByKey k l).length = l.length := by
  induction l with
  | nil => simp [sortByKey]
  | cons a as ih => simp [sortByKey, length_insertByKey, ih]

theorem sortByKey_eq_nil_iff (k : Event → ℚ) (l : List Event) :
    sortByKey k l = [] ↔ l = [] := by
  constructor
  · intro h
    have := length_sortByKey k l
    rw [h] at this
    exact List.length_eq_zero.mp this.symm
  · intro h
    simp [h, sortByKey]

/-- In a list sorted ascending by `k`, the first element satisfying `p`
has a minimal key among all elements satisfying `p`. -/
theorem find?_key_min (k : Event → ℚ) (p : Event → Bool) (a : Event) :
    ∀ l : List Event, l.Pairwise (fun x y => k x ≤ k y) →
      l.find? p = some a → ∀ b ∈ l, p b = true → k a ≤ k b := by
  intro l
  induction l with
  | nil => intro _ h; simp [List.find?] at h
  | cons c t ih =>
      intro hpw hfind b hb hpb
      rcases List.pairwise_cons.mp hpw with ⟨hc, ht⟩
      by_cases hpc : p c = true
      · rw [List.find?_cons_of_pos _ hpc] at hfind
        injection hfind with h1
        subst h1
        rcases List.mem_cons.mp hb with rfl | hb
        · exact le_refl _
        · exact hc b hb
      · rw [List.find?_cons_of_neg _ (by simpa using hpc)] at hfind
        rcases List.mem_cons.mp hb with rfl | hb
        · exact absurd hpb hpc
        · exact ih ht hfind b hb hpb

/-- Update the `cluster` foreign key of every event row with id `eid`
(models `event.cluster = cluster; event.save()`). -/
def setCluster (cid : Option Nat) (eid : Nat) (evs : List Event) : List Event :=
  evs.map (fun x => if x.id = eid then { x with cluster := cid } else x)

/-- Apply `f` to the cluster row with id `cid` (models `cluster.save()`). -/
def updateCluster (cid : Nat) (f : EventCluster → EventCluster)
    (cs : List EventCluster) : List EventCluster :=
  cs.map (fun c => if c.id = cid then f c else c)

/-- `ClusteringService.DEFAULT_RADIUS_METERS` (`services/clustering.py`). -/
def ClusteringService.DEFAULT_RADIUS_METERS : Int := 100

/-- `ClusteringService.DEFAULT_TIME_WINDOW_MINUTES` (`services/clustering.py`). -/
def ClusteringService.DEFAULT_TIME_WINDOW_MINUTES : Int := 30

/-- `ClusteringService.ESCALATION_THRESHOLD_HIGH` (`services/clustering.py`). -/
def ClusteringService.ESCALATION_THRESHOLD_HIGH : Int := 3

/-- `ClusteringService.ESCALATION_THRESHOLD_CRITICAL` (`services/clustering.py`). -/
def ClusteringService.ESCALATION_THRESHOLD_CRITICAL : Int := 5

/-- `ClusteringService.find_nearby_events` (`services/clustering.py` 43-69):
filter events created in the last `tw` minutes whose distance from `e` is at
most `radius` meters, exclude `e` itself, order by ascending distance.
`dist` is the abstract WGS-84 metric used by `location__distance_lte` and the
`Distance` annotation. -/
def ClusteringService.findNearbyEvents (dist : Event → Event → ℚ)
    (radius tw now : Int) (db : DB) (e : Event) : List Event :=
  sortByKey (fun x => dist e x)
    (((db.events.filter
        (fun x => decide (now - tw * 60 ≤ x.createdAt) &&
                  decide (dist e x ≤ (radius : ℚ)))).filter
      (fun x => decide (x.id ≠ e.id))))

/-- `ClusteringService.create_cluster` (`services/clustering.py` 71-111):
make a cluster at `e`'s location, count `1 + |nearby|`, severity escalated by
the count thresholds, then assign `e` and each nearby event to it. -/
def ClusteringService.createCluster (now : Int) (db : DB) (e : Event)
    (nearby : List Event) : DB × EventCluster :=
  let total : Int := 1 + (nearby.length : Int)
  let sev : Int :=
    if total ≥ ClusteringService.ESCALATION_THRESHOLD_CRITICAL then
      SeverityChoices.CRITICAL
    else if total ≥ ClusteringService.ESCALATION_THRESHOLD_HIGH then
      max e.severity SeverityChoices.HIGH
    else e.severity
  let c : EventCluster :=
    { id := db.nextClusterId, centroidX := e.locX, centroidY := e.locY,
      radiusMeters := 100, eventCount := total, firstEventAt := now,
      lastEventAt := now, computedSeverity := sev }
  let evs :=
    nearby.foldl (fun acc m => setCluster (some c.id) m.id acc)
      (setCluster (some c.id) e.id db.events)
  ({ events := evs, clusters := db.clusters ++ [c],
     nextClusterId := db.nextClusterId + 1 }, c)

/-- `ClusteringService.add_to_cluster` (`services/clustering.py` 113-145):
assign `e` to the cluster, recount live membership, stamp `last_event_at`,
and escalate severity by the count thresholds. -/
def ClusteringService.addToCluster (now : Int) (db : DB) (e : Event)
    (cid : Nat) : DB :=
  let evs := setCluster (some cid) e.id db.events
  let cnt : Int := ((evs.filter (fun x => x.cluster = some cid)).length : Int)
  let cs := updateCluster cid
    (fun c =>
      { c with
        eventCount := cnt,
        lastEventAt := now,
        computedSeverity :=
          if cnt ≥ ClusteringService.ESCALATION_THRESHOLD_CRITICAL then
            SeverityChoices.CRITICAL
          else if cnt ≥ ClusteringService.ESCALATION_THRESHOLD_HIGH then
            max c.computedSeverity SeverityChoices.HIGH
          else c.computedSeverity }) db.clusters
  { db with events := evs, clusters := cs }

/-- `ClusteringService._find_existing_cluster` (`services/clustering.py`
147-155): the cluster of the first scanned event that has one. -/
def ClusteringService.findExistingCluster (l : List Event) : Option Nat :=
  (l.find? (fun x => x.cluster.isSome)).bind (fun x => x.cluster)

/-- `ClusteringService.process_event` (`services/clustering.py` 157-188):
find nearby events; if none, do nothing; if one of them already has a
cluster, add `e` to the first such cluster; otherwise create a new cluster
from `e` and all nearby events. Returns the new store and the cluster id
the event was assigned to, if any. -/
def ClusteringService.processEvent (dist : Event → Event → ℚ) (now : Int)
    (db : DB) (e : Event) : DB × Option Nat :=
  let nearby := ClusteringService.findNearbyEvents dist
    ClusteringService.DEFAULT_RADIUS_METERS
    ClusteringService.DEFAULT_TIME_WINDOW_MINUTES now db e
  if nearby.isEmpty then (db, none)
  else
    match ClusteringService.findExistingCluster nearby with
    | some cid => (ClusteringService.addToCluster now db e cid, some cid)
    | none =>
        let r := ClusteringService.createCluster now db e nearby
        (r.1, some r.2.id)

/-- Python `max(e.severity for e in events)` over a non-empty member list
(`services/clustering.py` 222). The `[]` case is unreachable at the call
site (guarded by `event_count > 0`). -/
def maxMemberSeverity : List Event → Int
  | [] => 0
  | x :: xs => xs.foldl (fun a y => max a y.severity) x.severity

/-- `ClusteringService.recalculate_cluster` (`services/clustering.py`
190-226): recount live membership; delete the cluster when empty; otherwise
recompute the centroid as the coordinate mean and the severity from the
count thresholds, falling back to the members' maximum severity. -/
def ClusteringService.recalculateCluster (db : DB) (cid : Nat) : DB :=
  let members := db.events.filter (fun x => x.cluster = some cid)
  let cnt : Int := (members.length : Int)
  if cnt = 0 then
    { db with clusters := db.clusters.filter (fun c => decide (c.id ≠ cid)) }
  else
    let cs := updateCluster cid
        (fun c =>
          { c with
            eventCount := cnt,
            centroidX := ((members.map (fun x => x.locX)).sum) / (cnt : ℚ),
            centroidY := ((members.map (fun x => x.locY)).sum) / (cnt : ℚ),
            computedSeverity :=
              if cnt ≥ ClusteringService.ESCALATION_THRESHOLD_CRITICAL then
                SeverityChoices.CRITICAL
              else if cnt ≥ ClusteringService.ESCALATION_THRESHOLD_HIGH then
                SeverityChoices.HIGH
              else maxMemberSeverity members }) db.clusters
    { db with clusters := cs }

/-- The neighbor query of the Celery task `cluster_events`
(`tasks/processing.py` 195-205): the same filters as the service query, but
with no `order_by("distance")`; the queryset therefore carries the `Event`
model's `Meta.ordering = ["-created_at"]`, i.e. newest first. -/
def taskNearbyEvents (dist : Event → Event → ℚ) (now : Int) (db : DB)
    (e : Event) : List Event :=
  sortByKey (fun x => (-x.createdAt : ℚ))
    (((db.events.filter
        (fun x => decide (now - 30 * 60 ≤ x.createdAt) &&
                  decide (dist e x ≤ (100 : ℚ)))).filter
      (fun x => decide (x.id ≠ e.id))))

/-- The add-to-existing-cluster branch of the Celery task `cluster_events`
(`tasks/processing.py` 215-232): assign the event, recount live membership,
stamp `last_event_at`, escalate severity at counts 5 and 3. -/
def taskAddToCluster (now : Int) (db : DB) (e : Event) (cid : Nat) : DB :=
  let evs := setCluster (some cid) e.id db.events
  let cnt : Int := ((evs.filter (fun x => x.cluster = some cid)).length : Int)
  let cs := updateCluster cid
    (fun c =>
      { c with
        eventCount := cnt,
        lastEventAt := now,
        computedSeverity :=
          if cnt ≥ 5 then SeverityChoices.CRITICAL
          else if cnt ≥ 3 then max c.computedSeverity SeverityChoices.HIGH
          else c.computedSeverity }) db.clusters
  { db with events := evs, clusters := cs }

/-- The new-cluster branch of the Celery task `cluster_events`
(`tasks/processing.py` 233-247): `computed_severity = event.severity`, with
no escalation by count, unlike `ClusteringService.create_cluster`. -/
def taskCreateCluster (now : Int) (db : DB) (e : Event)
    (nearby : List Event) : DB :=
  let c : EventCluster :=
    { id := db.nextClusterId,
      centroidX := e.locX,
      centroidY := e.locY,
      radiusMeters := 100,
      eventCount := (nearby.length : Int) + 1,
      firstEventAt := now,
      lastEventAt := now,
      computedSeverity := e.severity }
  let evs :=
    nearby.foldl (fun acc m => setCluster (some c.id) m.id acc)
      (setCluster (some c.id) e.id db.events)
  { events := evs, clusters := db.clusters ++ [c],
    nextClusterId := db.nextClusterId + 1 }

/-- The Celery task `cluster_events` (`tasks/processing.py` 181-247): scan
the in-window neighbors (newest first); if any already belongs to a cluster,
add the event to the first such cluster, else create a new cluster from the
event and all neighbors; with no neighbors, do nothing. -/
def clusterEvents (dist : Event → Event → ℚ) (now : Int) (db : DB)
    (e : Event) : DB :=
  let nearby := taskNearbyEvents dist now db e
  if nearby.isEmpty then db
  else
    match ClusteringService.findExistingCluster nearby with
    | some cid => taskAddToCluster now db e cid
    | none => taskCreateCluster now db e nearby

/-- A parsed classification result: the `dict` returned by
`ClassificationService.classify` (`services/classification.py`), whose keys
may each be absent (`dict.get` defaults apply at the use sites). -/
structure Classification where
  category : Option String := none
  subcategory : Option String := none
  severity : Option Int := none
  confidence : Option ℚ := none
  reasoning : Option String := none
deriving DecidableEq, Repr

/-- `ClassificationService._default_classification`
(`services/classification.py` 87-95). -/
def defaultClassification (reason : String) : Classification :=
  { category := some "informational",
    subcategory := some "",
    severity := some 1,
    confidence := none,
    reasoning := some reason }

/-- `ClassificationService.classify` (`services/classification.py` 97-146):
with no configured client, the skip default; with a remote call that returns
parsed JSON, that result verbatim (unvalidated); with a failing remote call,
the failure default. -/
def ClassificationService.classify (configured : Bool)
    (remote : Except String Classification) : Classification :=
  if configured = false then
    defaultClassification "Classification skipped - API not configured"
  else
    match remote with
    | Except.ok r => r
    | Except.error e => defaultClassification ("Classification failed: " ++ e)

/-- The processing report `dict` built by
`EventProcessingService.process_event` (`services/processing.py` 58-62
and the per-stage updates). -/
structure Report where
  eventId : Nat
  stepsCompleted : List String := []
  errors : List String := []
  mediaUrl : Option String := none
  thumbnailUrl : Option String := none
  transcription : Option String := none
  classification : Option Classification := none
  clusterId : Option Nat := none
deriving DecidableEq, Repr

/-- Outcomes of the external calls made by the six pipeline stages, one
oracle per stage: `Except.error m` models the stage body raising an
exception with message `m`.  `extractKeyframe`/`transcribeMedia` yield
`none` when the helper returns `None` (extraction produced nothing). -/
structure PipelineEnv where
  storeMedia : Except String String
  extractKeyframe : Except String (Option String)
  transcribeMedia : Except String (Option String)
  classifyCall : Except String Classification
  clusterCall : Except String (Option Nat)
  broadcastCall : Except String Unit
deriving Repr

/-- Step 1 of `EventProcessingService.process_event`
(`services/processing.py` 64-78): store media.  Guarded by the truthiness
of `media_data`; on success records the URL on the event and the report, on
exception appends one error entry. -/
def stageStoreMedia (env : PipelineEnv) (mediaData : Bool)
    (s : Report × Event) : Report × Event :=
  if mediaData then
    match env.storeMedia with
    | Except.ok url =>
        ({ s.1 with
           stepsCompleted := s.1.stepsCompleted ++ ["store_media"],
           mediaUrl := some url }, { s.2 with mediaUrl := url })
    | Except.error m =>
        ({ s.1 with errors := s.1.errors ++ ["store_media: " ++ m] }, s.2)
  else s

/-- Step 2 of `EventProcessingService.process_event`
(`services/processing.py` 80-91): extract keyframe when the event is a
video and media bytes are present; `_extract_keyframe` returning `None`
(or an empty, falsy URL) records nothing. -/
def stageExtractKeyframe (env : PipelineEnv) (mediaData : Bool)
    (s : Report × Event) : Report × Event :=
  if s.2.mediaType = "video" && mediaData then
    match env.extractKeyframe with
    | Except.ok (some url) =>
        if url = "" then s
        else
          ({ s.1 with
             stepsCompleted := s.1.stepsCompleted ++ ["extract_keyframe"],
             thumbnailUrl := some url }, { s.2 with thumbnailUrl := url })
    | Except.ok none => s
    | Except.error m =>
        ({ s.1 with errors := s.1.errors ++ ["extract_keyframe: " ++ m] },
         s.2)
  else s

/-- Step 3 of `EventProcessingService.process_event`
(`services/processing.py` 93-104): transcribe audio when the event is a
video and media bytes are present. -/
def stageTranscribe (env : PipelineEnv) (mediaData : Bool)
    (s : Report × Event) : Report × Event :=
  if s.2.mediaType = "video" && mediaData then
    match env.transcribeMedia with
    | Except.ok (some text) =>
        if text = "" then s
        else
          ({ s.1 with
             stepsCompleted := s.1.stepsCompleted ++ ["transcribe"],
             transcription := some text },
           { s.2 with transcription := text })
    | Except.ok none => s
    | Except.error m =>
        ({ s.1 with errors := s.1.errors ++ ["transcribe: " ++ m] }, s.2)
  else s

/-- Step 4 of `EventProcessingService.process_event`
(`services/processing.py` 106-121): apply the classifier result's fields to
the event with `dict.get` defaults — the severity is stored unvalidated. -/
def stageClassify (env : PipelineEnv) (s : Report × Event) : Report × Event :=
  match env.classifyCall with
  | Except.ok c =>
      ({ s.1 with
         stepsCompleted := s.1.stepsCompleted ++ ["classify"],
         classification := some c },
       { s.2 with
         category := c.category.getD "",
         subcategory := c.subcategory.getD "",
         severity := c.severity.getD 1,
         aiConfidence := c.confidence,
         aiReasoning := c.reasoning.getD "" })
  | Except.error m =>
      ({ s.1 with errors := s.1.errors ++ ["classify: " ++ m] }, s.2)

/-- Step 5 of `EventProcessingService.process_event`
(`services/processing.py` 123-131): spatial clustering; a `None` return
(no nearby events) records neither a step nor an error. -/
def stageCluster (env : PipelineEnv) (s : Report × Event) : Report × Event :=
  match env.clusterCall with
  | Except.ok (some cid) =>
      ({ s.1 with
         stepsCompleted := s.1.stepsCompleted ++ ["cluster"],
         clusterId := some cid }, { s.2 with cluster := some cid })
  | Except.ok none => s
  | Except.error m =>
      ({ s.1 with errors := s.1.errors ++ ["cluster: " ++ m] }, s.2)

/-- Step 6 of `EventProcessingService.process_event`
(`services/processing.py` 133-139): broadcast to SSE clients. -/
def stageBroadcast (env : PipelineEnv) (s : Report × Event) : Report × Event :=
  match env.broadcastCall with
  | Except.ok _ =>
      ({ s.1 with stepsCompleted := s.1.stepsCompleted ++ ["broadcast"] },
       s.2)
  | Except.error m =>
      ({ s.1 with errors := s.1.errors ++ ["broadcast: " ++ m] }, s.2)

/-- `EventProcessingService.process_event` (`services/processing.py`
41-147).  `mediaData` is the truthiness of the `media_data` argument
(present and non-empty).  Each stage is guarded by its own `try/except`:
a failing oracle appends one `"<stage>: <msg>"` entry to `errors` and the
pipeline continues with the next stage. -/
def EventProcessingService.processEvent (env : PipelineEnv) (e0 : Event)
    (mediaData : Bool) : Report × Event :=
  stageBroadcast env
    (stageCluster env
      (stageClassify env
        (stageTranscribe env mediaData
          (stageExtractKeyframe env mediaData
            (stageStoreMedia env mediaData ({ eventId := e0.id }, e0))))))

/-- `EventProcessingService.reprocess_event` (`services/processing.py`
222-233): `process_event` with `media_data=None`. -/
def EventProcessingService.reprocessEvent (env : PipelineEnv)
    (e : Event) : Report × Event :=
  EventProcessingService.processEvent env e false

/-- The `UserProfile` model row (`core/models.py`). -/
structure UserProfile where
  userId : Nat
  reportsSubmitted : Int := 0
  reportsVerified : Int := 0
  badges : List String := []
  reputationScore : Int := 0
deriving DecidableEq, Repr

/-- Report-milestone badge thresholds (`services/gamification.py` 204-209). -/
def reportBadges : List (String × Int) :=
  [("first_report", 1), ("reporter_10", 10),
   ("reporter_50", 50), ("reporter_100", 100)]

/-- Verification-milestone badge thresholds
(`services/gamification.py` 218-223). -/
def verifiedBadges : List (String × Int) :=
  [("first_verified", 1), ("verified_10", 10),
   ("verified_25", 25), ("verified_50", 50)]

/-- Reputation-milestone badge thresholds
(`services/gamification.py` 229-233). -/
def reputationBadges : List (String × Int) :=
  [("reputation_100", 100), ("reputation_500", 500),
   ("reputation_1000", 1000)]

/-- The keys of `BADGE_DEFINITIONS` (`services/gamification.py` 31-145). -/
def badgeDefinitionIds : List String :=
  ["first_report", "reporter_10", "reporter_50", "reporter_100",
   "first_verified", "verified_10", "verified_25", "verified_50",
   "reputation_100", "reputation_500", "reputation_1000",
   "early_adopter", "night_owl", "emergency_responder"]

/-- `list(current_badges | set(newly_awarded))` (`services/gamification.py`
240): Python set union; the iteration order of a Python `set` is
unspecified, so the model fixes one order — membership is what the
invariants and claims consume. -/
def badgeUnion (cur newIds : List String) : List String :=
  cur ++ newIds.filter (fun i => !cur.contains i)

/-- `GamificationService.check_and_award_badges`
(`services/gamification.py` 190-246): collect the milestone badges whose
threshold is met and that are not yet held, and union them into the badge
set; when none, the profile is left untouched. -/
def GamificationService.checkAndAwardBadges (p : UserProfile) : UserProfile :=
  let newReports := (reportBadges.filter
    (fun b => !p.badges.contains b.1 && decide (p.reportsSubmitted ≥ b.2))).map
      (fun b => b.1)
  let newVerified := (verifiedBadges.filter
    (fun b => !p.badges.contains b.1 && decide (p.reportsVerified ≥ b.2))).map
      (fun b => b.1)
  let newReputation := (reputationBadges.filter
    (fun b => !p.badges.contains b.1 && decide (p.reputationScore ≥ b.2))).map
      (fun b => b.1)
  let newlyAwarded := newReports ++ newVerified ++ newReputation
  if newlyAwarded.isEmpty then p
  else { p with badges := badgeUnion p.badges newlyAwarded }

/-- `GamificationService.award_special_badge`
(`services/gamification.py` 248-270). -/
def GamificationService.awardSpecialBadge (p : UserProfile)
    (badgeId : String) : UserProfile :=
  if !badgeDefinitionIds.contains badgeId then p
  else if p.badges.contains badgeId then p
  else { p with badges := badgeUnion p.badges [badgeId] }

/-- `GamificationService.add_reputation` (`services/gamification.py`
272-301): atomic `F`-expression increment, then a badge check. -/
def GamificationService.addReputation (p : UserProfile)
    (points : Int) : UserProfile :=
  GamificationService.checkAndAwardBadges
    { p with reputationScore := p.reputationScore + points }

/-- `GamificationService.on_report_verified` (`services/gamification.py`
316-341): `+10` reputation, plus a `+25` bonus and the one-shot
`emergency_responder` badge when the report was Critical, then a milestone
badge check. -/
def GamificationService.onReportVerified (p : UserProfile)
    (isCritical : Bool) : UserProfile :=
  let points : Int := 10 + (if isCritical then 25 else 0)
  let p1 := if isCritical then
      GamificationService.awardSpecialBadge p "emergency_responder"
    else p
  let p2 := GamificationService.addReputation p1 points
  GamificationService.checkAndAwardBadges p2

/-- `GamificationService.on_report_rejected`
(`services/gamification.py` 343-351): `-5` reputation. -/
def GamificationService.onReportRejected (p : UserProfile) : UserProfile :=
  GamificationService.addReputation p (-5)

/-- The authenticated principal of the `PATCH /events/{id}/status` route
(`request.auth`, a `User`). -/
structure Auth where
  userId : Nat
  isStaff : Bool
deriving DecidableEq, Repr

/-- What `update_event_status` (`api/routes.py` 255-302) produces: the HTTP
code, the (possibly updated) event row, the reporter's (possibly updated)
profile row, and the fan-out messages published during the call. -/
structure StatusUpdateResult where
  code : Nat
  event : Event
  profile : Option UserProfile
  published : List String
deriving DecidableEq, Repr

/-- `update_event_status` (`api/routes.py` 255-302): non-staff get `403`
with no writes and no fan-out; otherwise the status, reviewer and review
time are stamped, the gamification hook fires on a transition into
`verified` (increment `reports_verified`, then `on_report_verified` with
`is_critical` sampled from the event before the write) or into
`false_alarm` (`on_report_rejected`), a missing reporter profile is
swallowed (`UserProfile.DoesNotExist`), and exactly one `status_change`
message is published. -/
def updateEventStatus (now : Int) (auth : Auth) (e : Event)
    (profile : Option UserProfile) (newStatus : String) : StatusUpdateResult :=
  if auth.isStaff = false then
    { code := 403, event := e, profile := profile, published := [] }
  else
    let wasVerified := newStatus = "verified" && e.status ≠ "verified"
    let wasRejected := newStatus = "false_alarm" && e.status ≠ "false_alarm"
    let isCritical := e.severity = SeverityChoices.CRITICAL
    let e' := { e with
      status := newStatus,
      reviewedById := some auth.userId,
      reviewedAt := some now }
    let profile' :=
      match e.reporterId, profile with
      | some _, some p =>
          if wasVerified then
            some (GamificationService.onReportVerified
              { p with reportsVerified := p.reportsVerified + 1 } isCritical)
          else if wasRejected then
            some (GamificationService.onReportRejected p)
          else some p
      | some _, none => none
      | none, _ => profile
    { code := 200, event := e', profile := profile',
      published := ["status_change"] }

/-- Python's `json.dumps` on a `dict` of strings with default separators
(`", "` between items, `": "` between key and value), as called in
`api/streaming.py` 34. -/
def jsonDumpsPairs (ps : List (String × String)) : String :=
  "\x7b" ++ String.intercalate ", "
    (ps.map (fun p => "\"" ++ p.1 ++ "\": \"" ++ p.2 ++ "\"")) ++ "\x7d"

/-- The synthetic first SSE frame of `event_stream`
(`api/streaming.py` 34). -/
def connectedFrame : String :=
  "event: connected\ndata: " ++ jsonDumpsPairs [("status", "connected")]
    ++ "\n\n"

/-- One `event_update` SSE frame (`api/streaming.py` 43): the published bus
payload delivered verbatim. -/
def updateFrame (payload : String) : String :=
  "event: event_update\ndata: " ++ payload ++ "\n\n"

/-- `event_stream` (`api/streaming.py` 24-49), as a function of the list of
messages published on the `events:updates` channel while the subscription
is live: the `connected` frame first, then one `event_update` frame per
published message, in publication order. -/
def eventStream (published : List String) : List String :=
  connectedFrame :: published.map updateFrame

/-- The `steps_completed` entry a stage appends when its oracle succeeds
unconditionally (`store_media`, `classify`, `broadcast`). -/
def okStep (stage : String) {α : Type} : Except String α → List String
  | Except.ok _ => [stage]
  | Except.error _ => []

/-- The `steps_completed` entry of `extract_keyframe`/`transcribe`: appended
only when the helper returned a truthy (non-`None`, non-empty) text. -/
def textStep (stage : String) : Except String (Option String) → List String
  | Except.ok (some u) => if u = "" then [] else [stage]
  | Except.ok none => []
  | Except.error _ => []

/-- The `steps_completed` entry of the `cluster` stage: appended only when
`ClusteringService.process_event` returned a cluster. -/
def clusterStep : Except String (Option Nat) → List String
  | Except.ok (some _) => ["cluster"]
  | Except.ok none => []
  | Except.error _ => []

/-- The `errors` entry a stage appends: one `"<stage>: <msg>"` on an
exception, nothing on success. -/
def errList (stage : String) {α : Type} : Except String α → List String
  | Except.error m => [stage ++ ": " ++ m]
  | Except.ok _ => []

theorem stageStoreMedia_steps (env : PipelineEnv) (media : Bool)
    (s : Report × Event) :
    (stageStoreMedia env media s).1.stepsCompleted =
      s.1.stepsCompleted ++
        (if media then okStep "store_media" env.storeMedia else []) := by
  cases h : env.storeMedia <;> cases media <;>
    simp [stageStoreMedia, okStep, h]

theorem stageStoreMedia_errors (env : PipelineEnv) (media : Bool)
    (s : Report × Event) :
    (stageStoreMedia env media s).1.errors =
      s.1.errors ++
        (if media then errList "store_media" env.storeMedia else []) := by
  cases h : env.storeMedia <;> cases media <;>
    simp [stageStoreMedia, errList, h]

theorem stageStoreMedia_eventId (env : PipelineEnv) (media : Bool)
    (s : Report × Event) :
    (stageStoreMedia env media s).1.eventId = s.1.eventId := by
  cases h : env.storeMedia <;> cases media <;> simp [stageStoreMedia, h]

theorem stageStoreMedia_mediaType (env : PipelineEnv) (media : Bool)
    (s : Report × Event) :
    (stageStoreMedia env media s).2.mediaType = s.2.mediaType := by
  cases h : env.storeMedia <;> cases media <;> simp [stageStoreMedia, h]

theorem stageStoreMedia_thumbnailUrl (env : PipelineEnv) (media : Bool)
    (s : Report × Event) :
    (stageStoreMedia env media s).2.thumbnailUrl = s.2.thumbnailUrl := by
  cases h : env.storeMedia <;> cases media <;> simp [stageStoreMedia, h]

theorem stageStoreMedia_transcription (env : PipelineEnv) (media : Bool)
    (s : Report × Event) :
    (stageStoreMedia env media s).2.transcription = s.2.transcription := by
  cases h : env.storeMedia <;> cases media <;> simp [stageStoreMedia, h]

theorem stageStoreMedia_severity (env : PipelineEnv) (media : Bool)
    (s : Report × Event) :
    (stageStoreMedia env media s).2.severity = s.2.severity := by
  cases h : env.storeMedia <;> cases media <;> simp [stageStoreMedia, h]

theorem stageStoreMedia_skip (env : PipelineEnv) (s : Report × Event) :
    stageStoreMedia env false s = s := by
  simp [stageStoreMedia]

theorem stageExtractKeyframe_steps (env : PipelineEnv) (media : Bool)
    (s : Report × Event) :
    (stageExtractKeyframe env media s).1.stepsCompleted =
      s.1.stepsCompleted ++
        (if s.2.mediaType = "video" && media then
          textStep "extract_keyframe" env.extractKeyframe else []) := by
  by_cases hg : (s.2.mediaType = "video" && media) = true
  · cases h : env.extractKeyframe with
    | error m => simp [stageExtractKeyframe, textStep, hg, h]
    | ok o =>
        cases o with
        | none => simp [stageExtractKeyframe, textStep, hg, h]
        | some u =>
            by_cases hu : u = "" <;>
              simp [stageExtractKeyframe, textStep, hg, h, hu]
  · rw [Bool.not_eq_true] at hg
    simp [stageExtractKeyframe, hg]

theorem stageExtractKeyframe_errors (env : PipelineEnv) (media : Bool)
    (s : Report × Event) :
    (stageExtractKeyframe env media s).1.errors =
      s.1.errors ++
        (if s.2.mediaType = "video" && media then
          errList "extract_keyframe" env.extractKeyframe else []) := by
  by_cases hg : (s.2.mediaType = "video" && media) = true
  · cases h : env.extractKeyframe with
    | error m => simp [stageExtractKeyframe, errList, hg, h]
    | ok o =>
        cases o with
        | none => simp [stageExtractKeyframe, errList, hg, h]
        | some u =>
            by_cases hu : u = "" <;>
              simp [stageExtractKeyframe, errList, hg, h, hu]
  · rw [Bool.not_eq_true] at hg
    simp [stageExtractKeyframe, hg]

theorem stageExtractKeyframe_eventId (env : PipelineEnv) (media : Bool)
    (s : Report × Event) :
    (stageExtractKeyframe env media s).1.eventId = s.1.eventId := by
  by_cases hg : (s.2.mediaType = "video" && media) = true
  · cases h : env.extractKeyframe with
    | error m => simp [stageExtractKeyframe, hg, h]
    | ok o =>
        cases o with
        | none => simp [stageExtractKeyframe, hg, h]
        | some u =>
            by_cases hu : u = "" <;> simp [stageExtractKeyframe, hg, h, hu]
  · rw [Bool.not_eq_true] at hg
    simp [stageExtractKeyframe, hg]

theorem stageExtractKeyframe_mediaType (env : PipelineEnv) (media : Bool)
    (s : Report × Event) :
    (stageExtractKeyframe env media s).2.mediaType = s.2.mediaType := by
  by_cases hg : (s.2.mediaType = "video" && media) = true
  · cases h : env.extractKeyframe with
    | error m => simp [stageExtractKeyframe, hg, h]
    | ok o =>
        cases o with
        | none => simp [stageExtractKeyframe, hg, h]
        | some u =>
            by_cases hu : u = "" <;> simp [stageExtractKeyframe, hg, h, hu]
  · rw [Bool.not_eq_true] at hg
    simp [stageExtractKeyframe, hg]

theorem stageExtractKeyframe_mediaUrl (env : PipelineEnv) (media : Bool)
    (s : Report × Event) :
    (stageExtractKeyframe env media s).2.mediaUrl = s.2.mediaUrl := by
  by_cases hg : (s.2.mediaType = "video" && media) = true
  · cases h : env.extractKeyframe with
    | error m => simp [stageExtractKeyframe, hg, h]
    | ok o =>
        cases o with
        | none => simp [stageExtractKeyframe, hg, h]
        | some u =>
            by_cases hu : u = "" <;> simp [stageExtractKeyframe, hg, h, hu]
  · rw [Bool.not_eq_true] at hg
    simp [stageExtractKeyframe, hg]

theorem stageExtractKeyframe_transcription (env : PipelineEnv) (media : Bool)
    (s : Report × Event) :
    (stageExtractKeyframe env media s).2.transcription = s.2.transcription := by
  by_cases hg : (s.2.mediaType = "video" && media) = true
  · cases h : env.extractKeyframe with
    | error m => simp [stageExtractKeyframe, hg, h]
    | ok o =>
        cases o with
        | none => simp [stageExtractKeyframe, hg, h]
        | some u =>
            by_cases hu : u = "" <;> simp [stageExtractKeyframe, hg, h, hu]
  · rw [Bool.not_eq_true] at hg
    simp [stageExtractKeyframe, hg]

theorem stageExtractKeyframe_severity (env : PipelineEnv) (media : Bool)
    (s : Report × Event) :
    (stageExtractKeyframe env media s).2.severity = s.2.severity := by
  by_cases hg : (s.2.mediaType = "video" && media) = true
  · cases h : env.extractKeyframe with
    | error m => simp [stageExtractKeyframe, hg, h]
    | ok o =>
        cases o with
        | none => simp [stageExtractKeyframe, hg, h]
        | some u =>
            by_cases hu : u = "" <;> simp [stageExtractKeyframe, hg, h, hu]
  · rw [Bool.not_eq_true] at hg
    simp [stageExtractKeyframe, hg]

theorem stageExtractKeyframe_skip (env : PipelineEnv) (s : Report × Event) :
    stageExtractKeyframe env false s = s := by
  simp [stageExtractKeyframe]

theorem stageTranscribe_steps (env : PipelineEnv) (media : Bool)
    (s : Report × Event) :
    (stageTranscribe env media s).1.stepsCompleted =
      s.1.stepsCompleted ++
        (if s.2.mediaType = "video" && media then
          textStep "transcribe" env.transcribeMedia else []) := by
  by_cases hg : (s.2.mediaType = "video" && media) = true
  · cases h : env.transcribeMedia with
    | error m => simp [stageTranscribe, textStep, hg, h]
    | ok o =>
        cases o with
        | none => simp [stageTranscribe, textStep, hg, h]
        | some u =>
            by_cases hu : u = "" <;> simp [stageTranscribe, textStep, hg, h, hu]
  · rw [Bool.not_eq_true] at hg
    simp [stageTranscribe, hg]

theorem stageTranscribe_errors (env : PipelineEnv) (media : Bool)
    (s : Report × Event) :
    (stageTranscribe env media s).1.errors =
      s.1.errors ++
        (if s.2.mediaType = "video" && media then
          errList "transcribe" env.transcribeMedia else []) := by
  by_cases hg : (s.2.mediaType = "video" && media) = true
  · cases h : env.transcribeMedia with
    | error m => simp [stageTranscribe, errList, hg, h]
    | ok o =>
        cases o with
        | none => simp [stageTranscribe, errList, hg, h]
        | some u =>
            by_cases hu : u = "" <;> simp [stageTranscribe, errList, hg, h, hu]
  · rw [Bool.not_eq_true] at hg
    simp [stageTranscribe, hg]

theorem stageTranscribe_eventId (env : PipelineEnv) (media : Bool)
    (s : Report × Event) :
    (stageTranscribe env media s).1.eventId = s.1.eventId := by
  by_cases hg : (s.2.mediaType = "video" && media) = true
  · cases h : env.transcribeMedia with
    | error m => simp [stageTranscribe, hg, h]
    | ok o =>
        cases o with
        | none => simp [stageTranscribe, hg, h]
        | some u =>
            by_cases hu : u = "" <;> simp [stageTranscribe, hg, h, hu]
  · rw [Bool.not_eq_true] at hg
    simp [stageTranscribe, hg]

theorem stageTranscribe_mediaType (env : PipelineEnv) (media : Bool)
    (s : Report × Event) :
    (stageTranscribe env media s).2.mediaType = s.2.mediaType := by
  by_cases hg : (s.2.mediaType = "video" && media) = true
  · cases h : env.transcribeMedia with
    | error m => simp [stageTranscribe, hg, h]
    | ok o =>
        cases o with
        | none => simp [stageTranscribe, hg, h]
        | some u =>
            by_cases hu : u = "" <;> simp [stageTranscribe, hg, h, hu]
  · rw [Bool.not_eq_true] at hg
    simp [stageTranscribe, hg]

theorem stageTranscribe_mediaUrl (env : PipelineEnv) (media : Bool)
    (s : Report × Event) :
    (stageTranscribe env media s).2.mediaUrl = s.2.mediaUrl := by
  by_cases hg : (s.2.mediaType = "video" && media) = true
  · cases h : env.transcribeMedia with
    | error m => simp [stageTranscribe, hg, h]
    | ok o =>
        cases o with
        | none => simp [stageTranscribe, hg, h]
        | some u =>
            by_cases hu : u = "" <;> simp [stageTranscribe, hg, h, hu]
  · rw [Bool.not_eq_true] at hg
    simp [stageTranscribe, hg]

theorem stageTranscribe_thumbnailUrl (env : PipelineEnv) (media : Bool)
    (s : Report × Event) :
    (stageTranscribe env media s).2.thumbnailUrl = s.2.thumbnailUrl := by
  by_cases hg : (s.2.mediaType = "video" && media) = true
  · cases h : env.transcribeMedia with
    | error m => simp [stageTranscribe, hg, h]
    | ok o =>
        cases o with
        | none => simp [stageTranscribe, hg, h]
        | some u =>
            by_cases hu : u = "" <;> simp [stageTranscribe, hg, h, hu]
  · rw [Bool.not_eq_true] at hg
    simp [stageTranscribe, hg]

theorem stageTranscribe_severity (env : PipelineEnv) (media : Bool)
    (s : Report × Event) :
    (stageTranscribe env media s).2.severity = s.2.severity := by
  by_cases hg : (s.2.mediaType = "video" && media) = true
  · cases h : env.transcribeMedia with
    | error m => simp [stageTranscribe, hg, h]
    | ok o =>
        cases o with
        | none => simp [stageTranscribe, hg, h]
        | some u =>
            by_cases hu : u = "" <;> simp [stageTranscribe, hg, h, hu]
  · rw [Bool.not_eq_true] at hg
    simp [stageTranscribe, hg]

theorem stageTranscribe_skip (env : PipelineEnv) (s : Report × Event) :
    stageTranscribe env false s = s := by
  simp [stageTranscribe]

theorem stageClassify_steps (env : PipelineEnv) (s : Report × Event) :
    (stageClassify env s).1.stepsCompleted =
      s.1.stepsCompleted ++ okStep "classify" env.classifyCall := by
  cases h : env.classifyCall <;> simp [stageClassify, okStep, h]

theorem stageClassify_errors (env : PipelineEnv) (s : Report × Event) :
    (stageClassify env s).1.errors =
      s.1.errors ++ errList "classify" env.classifyCall := by
  cases h : env.classifyCall <;> simp [stageClassify, errList, h]

theorem stageClassify_eventId (env : PipelineEnv) (s : Report × Event) :
    (stageClassify env s).1.eventId = s.1.eventId := by
  cases h : env.classifyCall <;> simp [stageClassify, h]

theorem stageClassify_mediaUrl (env : PipelineEnv) (s : Report × Event) :
    (stageClassify env s).2.mediaUrl = s.2.mediaUrl := by
  cases h : env.classifyCall <;> simp [stageClassify, h]

theorem stageClassify_thumbnailUrl (env : PipelineEnv) (s : Report × Event) :
    (stageClassify env s).2.thumbnailUrl = s.2.thumbnailUrl := by
  cases h : env.classifyCall <;> simp [stageClassify, h]

theorem stageClassify_transcription (env : PipelineEnv) (s : Report × Event) :
    (stageClassify env s).2.transcription = s.2.transcription := by
  cases h : env.classifyCall <;> simp [stageClassify, h]

theorem stageClassify_severity (env : PipelineEnv) (s : Report × Event) :
    (stageClassify env s).2.severity =
      (match env.classifyCall with
       | Except.ok c => c.severity.getD 1
       | Except.error _ => s.2.severity) := by
  cases h : env.classifyCall <;> simp [stageClassify, h]

theorem stageCluster_steps (env : PipelineEnv) (s : Report × Event) :
    (stageCluster env s).1.stepsCompleted =
      s.1.stepsCompleted ++ clusterStep env.clusterCall := by
  cases h : env.clusterCall with
  | error m => simp [stageCluster, clusterStep, h]
  | ok o => cases o <;> simp [stageCluster, clusterStep, h]

theorem stageCluster_errors (env : PipelineEnv) (s : Report × Event) :
    (stageCluster env s).1.errors =
      s.1.errors ++ errList "cluster" env.clusterCall := by
  cases h : env.clusterCall with
  | error m => simp [stageCluster, errList, h]
  | ok o => cases o <;> simp [stageCluster, errList, h]

theorem stageCluster_eventId (env : PipelineEnv) (s : Report × Event) :
    (stageCluster env s).1.eventId = s.1.eventId := by
  cases h : env.clusterCall with
  | error m => simp [stageCluster, h]
  | ok o => cases o <;> simp [stageCluster, h]

theorem stageCluster_mediaUrl (env : PipelineEnv) (s : Report × Event) :
    (stageCluster env s).2.mediaUrl = s.2.mediaUrl := by
  cases h : env.clusterCall with
  | error m => simp [stageCluster, h]
  | ok o => cases o <;> simp [stageCluster, h]

theorem stageCluster_thumbnailUrl (env : PipelineEnv) (s : Report × Event) :
    (stageCluster env s).2.thumbnailUrl = s.2.thumbnailUrl := by
  cases h : env.clusterCall with
  | error m => simp [stageCluster, h]
  | ok o => cases o <;> simp [stageCluster, h]

theorem stageCluster_transcription (env : PipelineEnv) (s : Report × Event) :
    (stageCluster env s).2.transcription = s.2.transcription := by
  cases h : env.clusterCall with
  | error m => simp [stageCluster, h]
  | ok o => cases o <;> simp [stageCluster, h]

theorem stageCluster_severity (env : PipelineEnv) (s : Report × Event) :
    (stageCluster env s).2.severity = s.2.severity := by
  cases h : env.clusterCall with
  | error m => simp [stageCluster, h]
  | ok o => cases o <;> simp [stageCluster, h]

theorem stageBroadcast_steps (env : PipelineEnv) (s : Report × Event) :
    (stageBroadcast env s).1.stepsCompleted =
      s.1.stepsCompleted ++ okStep "broadcast" env.broadcastCall := by
  cases h : env.broadcastCall <;> simp [stageBroadcast, okStep, h]

theorem stageBroadcast_errors (env : PipelineEnv) (s : Report × Event) :
    (stageBroadcast env s).1.errors =
      s.1.errors ++ errList "broadcast" env.broadcastCall := by
  cases h : env.broadcastCall <;> simp [stageBroadcast, errList, h]

theorem stageBroadcast_eventId (env : PipelineEnv) (s : Report × Event) :
    (stageBroadcast env s).1.eventId = s.1.eventId := by
  cases h : env.broadcastCall <;> simp [stageBroadcast, h]

theorem stageBroadcast_event (env : PipelineEnv) (s : Report × Event) :
    (stageBroadcast env s).2 = s.2 := by
  cases h : env.broadcastCall <;> simp [stageBroadcast, h]

/-- Whether a stage oracle raised (`Except.error`). -/
def stageFails {α : Type} : Except String α → Bool
  | Except.error _ => true
  | Except.ok _ => false

theorem errList_length (stage : String) {α : Type} (o : Except String α) :
    (errList stage o).length = if stageFails o then 1 else 0 := by
  cases o <;> simp [errList, stageFails]

/-- Full characterization of the report built by
`EventProcessingService.process_event`: the id, the completed steps and the
errors are each determined stage by stage, independently of the other
stages' outcomes. -/
theorem processEvent_report (env : PipelineEnv) (e : Event) (media : Bool) :
    (EventProcessingService.processEvent env e media).1.eventId = e.id ∧
    (EventProcessingService.processEvent env e media).1.stepsCompleted =
      (if media then okStep "store_media" env.storeMedia else []) ++
      ((if e.mediaType = "video" && media then
          textStep "extract_keyframe" env.extractKeyframe else []) ++
       ((if e.mediaType = "video" && media then
           textStep "transcribe" env.transcribeMedia else []) ++
        (okStep "classify" env.classifyCall ++
         (clusterStep env.clusterCall ++
          okStep "broadcast" env.broadcastCall)))) ∧
    (EventProcessingService.processEvent env e media).1.errors =
      (if media then errList "store_media" env.storeMedia else []) ++
      ((if e.mediaType = "video" && media then
          errList "extract_keyframe" env.extractKeyframe else []) ++
       ((if e.mediaType = "video" && media then
           errList "transcribe" env.transcribeMedia else []) ++
        (errList "classify" env.classifyCall ++
         (errList "cluster" env.clusterCall ++
          errList "broadcast" env.broadcastCall)))) := by
  refine ⟨?_, ?_, ?_⟩
  · simp [EventProcessingService.processEvent, stageBroadcast_eventId,
      stageCluster_eventId, stageClassify_eventId, stageTranscribe_eventId,
      stageExtractKeyframe_eventId, stageStoreMedia_eventId]
  · simp [EventProcessingService.processEvent, stageBroadcast_steps,
      stageCluster_steps, stageClassify_steps, stageTranscribe_steps,
      stageExtractKeyframe_steps, stageStoreMedia_steps,
      stageTranscribe_mediaType, stageExtractKeyframe_mediaType,
      stageStoreMedia_mediaType, List.append_assoc]
  · simp [EventProcessingService.processEvent, stageBroadcast_errors,
      stageCluster_errors, stageClassify_errors, stageTranscribe_errors,
      stageExtractKeyframe_errors, stageStoreMedia_errors,
      stageTranscribe_mediaType, stageExtractKeyframe_mediaType,
      stageStoreMedia_mediaType, List.append_assoc]

theorem mem_okStep {α : Type} {st x : String} {o : Except String α}
    (h : x ∈ okStep st o) : x = st := by
  cases o with
  | error m => simp [okStep] at h
  | ok v => simpa [okStep] using h

theorem mem_textStep {st x : String} {o : Except String (Option String)}
    (h : x ∈ textStep st o) : x = st := by
  cases o with
  | error m => simp [textStep] at h
  | ok u =>
      cases u with
      | none => simp [textStep] at h
      | some v =>
          by_cases hv : v = ""
          · simp [textStep, hv] at h
          · simp [textStep, hv] at h
            exact h

theorem mem_clusterStep {x : String} {o : Except String (Option Nat)}
    (h : x ∈ clusterStep o) : x = "cluster" := by
  cases o with
  | error m => simp [clusterStep] at h
  | ok u =>
      cases u with
      | none => simp [clusterStep] at h
      | some v =>
          simp [clusterStep] at h
          exact h

theorem mem_ifList {x : String} {g : Prop} [Decidable g] {l : List String}
    (h : x ∈ (if g then l else [])) : x ∈ l := by
  by_cases hg : g
  · simpa [hg] using h
  · simp [hg] at h

theorem okStep_self {α : Type} {st : String} {o : Except String α}
    (h : stageFails o = false) : st ∈ okStep st o := by
  cases o with
  | ok v => simp [okStep]
  | error m => simp [stageFails] at h

theorem guarded_errList_length {α : Type} (g : Bool) (st : String)
    (o : Except String α) :
    (if g = true then errList st o else []).length =
      if g && stageFails o then 1 else 0 := by
  cases g <;> simp [errList_length]

/-- C2: for every event and every media input, `process_event` returns a
report for that event and never propagates a stage exception: each stage
failure appends exactly one `errors` entry — the errors list is exactly the
concatenation of the per-stage entries, its length counts the failing
attempted stages — and the later independent stages still run (`classify`
and `broadcast` complete exactly when their own call succeeds, regardless
of earlier failures). -/
theorem c2_pipeline_error_isolation (env : PipelineEnv) (e : Event)
    (media : Bool) :
    (EventProcessingService.processEvent env e media).1.eventId = e.id ∧
    (EventProcessingService.processEvent env e media).1.errors =
      (if media then errList "store_media" env.storeMedia else []) ++
      ((if e.mediaType = "video" && media then
          errList "extract_keyframe" env.extractKeyframe else []) ++
       ((if e.mediaType = "video" && media then
           errList "transcribe" env.transcribeMedia else []) ++
        (errList "classify" env.classifyCall ++
         (errList "cluster" env.clusterCall ++
          errList "broadcast" env.broadcastCall)))) ∧
    (EventProcessingService.processEvent env e media).1.errors.length =
      ((if media && stageFails env.storeMedia then 1 else 0) +
       ((if (decide (e.mediaType = "video") && media) &&
            stageFails env.extractKeyframe then 1 else 0) +
        ((if (decide (e.mediaType = "video") && media) &&
             stageFails env.transcribeMedia then 1 else 0) +
         ((if stageFails env.classifyCall then 1 else 0) +
          ((if stageFails env.clusterCall then 1 else 0) +
           (if stageFails env.broadcastCall then 1 else 0)))))) ∧
    (stageFails env.classifyCall = false ↔
      "classify" ∈
        (EventProcessingService.processEvent env e media).1.stepsCompleted) ∧
    (stageFails env.broadcastCall = false ↔
      "broadcast" ∈
        (EventProcessingService.processEvent env e media).1.stepsCompleted) := by
  obtain ⟨hid, hsteps, herr⟩ := processEvent_report env e media
  refine ⟨hid, herr, ?_, ?_, ?_⟩
  · rw [herr]
    simp only [List.length_append, guarded_errList_length, errList_length]
  · constructor
    · intro h
      rw [hsteps]
      refine List.mem_append_right _ (List.mem_append_right _ ?_)
      refine List.mem_append_right _ (List.mem_append_left _ ?_)
      exact okStep_self h
    · intro h
      rw [hsteps] at h
      rcases List.mem_append.mp h with h1 | h
      · have := mem_okStep (mem_ifList h1)
        simp at this
      rcases List.mem_append.mp h with h1 | h
      · have := mem_textStep (mem_ifList h1)
        simp at this
      rcases List.mem_append.mp h with h1 | h
      · have := mem_textStep (mem_ifList h1)
        simp at this
      rcases List.mem_append.mp h with h1 | h
      · cases hc : env.classifyCall with
        | ok v => simp [stageFails]
        | error m => rw [hc] at h1; simp [okStep] at h1
      rcases List.mem_append.mp h with h1 | h1
      · have := mem_clusterStep h1
        simp at this
      · have := mem_okStep h1
        simp at this
  · constructor
    · intro h
      rw [hsteps]
      refine List.mem_append_right _ (List.mem_append_right _ ?_)
      refine List.mem_append_right _ (List.mem_append_right _ ?_)
      exact List.mem_append_right _ (okStep_self h)
    · intro h
      rw [hsteps] at h
      rcases List.mem_append.mp h with h1 | h
      · have := mem_okStep (mem_ifList h1)
        simp at this
      rcases List.mem_append.mp h with h1 | h
      · have := mem_textStep (mem_ifList h1)
        simp at this
      rcases List.mem_append.mp h with h1 | h
      · have := mem_textStep (mem_ifList h1)
        simp at this
      rcases List.mem_append.mp h with h1 | h
      · have := mem_okStep h1
        simp at this
      rcases List.mem_append.mp h with h1 | h1
      · have := mem_clusterStep h1
        simp at this
      · cases hc : env.broadcastCall with
        | ok v => simp [stageFails]
        | error m => rw [hc] at h1; simp [okStep] at h1

/-- C9: reprocessing (processing with no media bytes) leaves `media_url`,
`thumbnail_url` and `transcription` unchanged, records no
`store_media`/`extract_keyframe`/`transcribe` step or error, and proceeds
from `classify` onward — steps and errors come only from `classify`,
`cluster` and `broadcast`. -/
theorem c9_reprocess_leaves_media_unchanged (env : PipelineEnv) (e : Event) :
    (EventProcessingService.reprocessEvent env e).2.mediaUrl = e.mediaUrl ∧
    (EventProcessingService.reprocessEvent env e).2.thumbnailUrl =
      e.thumbnailUrl ∧
    (EventProcessingService.reprocessEvent env e).2.transcription =
      e.transcription ∧
    (EventProcessingService.reprocessEvent env e).1.stepsCompleted =
      okStep "classify" env.classifyCall ++
        (clusterStep env.clusterCall ++ okStep "broadcast" env.broadcastCall) ∧
    (EventProcessingService.reprocessEvent env e).1.errors =
      errList "classify" env.classifyCall ++
        (errList "cluster" env.clusterCall ++
          errList "broadcast" env.broadcastCall) := by
  obtain ⟨hid, hsteps, herr⟩ := processEvent_report env e false
  refine ⟨?_, ?_, ?_, ?_, ?_⟩
  · simp [EventProcessingService.reprocessEvent,
      EventProcessingService.processEvent, stageStoreMedia_skip,
      stageExtractKeyframe_skip, stageTranscribe_skip, stageBroadcast_event,
      stageCluster_mediaUrl, stageClassify_mediaUrl]
  · simp [EventProcessingService.reprocessEvent,
      EventProcessingService.processEvent, stageStoreMedia_skip,
      stageExtractKeyframe_skip, stageTranscribe_skip, stageBroadcast_event,
      stageCluster_thumbnailUrl, stageClassify_thumbnailUrl]
  · simp [EventProcessingService.reprocessEvent,
      EventProcessingService.processEvent, stageStoreMedia_skip,
      stageExtractKeyframe_skip, stageTranscribe_skip, stageBroadcast_event,
      stageCluster_transcription, stageClassify_transcription]
  · rw [EventProcessingService.reprocessEvent] at *
    rw [hsteps]
    simp
  · rw [EventProcessingService.reprocessEvent] at *
    rw [herr]
    simp

/-- A pipeline environment in which every stage succeeds and the classifier
returns the fallback classification. -/
def envAllOk : PipelineEnv :=
  { storeMedia := Except.ok "u",
    extractKeyframe := Except.ok none,
    transcribeMedia := Except.ok none,
    classifyCall := Except.ok (defaultClassification "r"),
    clusterCall := Except.ok none,
    broadcastCall := Except.ok () }

/-- A pipeline environment whose classifier call returns a parsed remote
response with `severity = 5`, outside the documented 1-4 range. -/
def envSeverityFive : PipelineEnv :=
  { envAllOk with
    classifyCall := Except.ok { severity := some 5 } }

/-- C5 counterexample: the classify stage stores the classifier result's
severity unvalidated, so a parsed remote response with `severity = 5`
leaves the event with severity 5 ∉ \x7b1,2,3,4\x7d after the pipeline runs. -/
theorem c5_counterexample :
    (EventProcessingService.processEvent envSeverityFive
      { id := 1 } false).2.severity = 5 ∧
    ¬((EventProcessingService.processEvent envSeverityFive
      { id := 1 } false).2.severity ≤ 4) := by
  decide

/-- C5 amended: severity defaults to 1 on creation, and stays in
\x7b1,2,3,4\x7d through the pipeline provided the applied classifier
result's severity (after the `dict.get` default of 1) is itself in range —
the code stores the classifier's severity without validation. -/
theorem c5_severity_range (env : PipelineEnv) (e : Event) (media : Bool)
    (h1 : 1 ≤ e.severity) (h2 : e.severity ≤ 4)
    (hc : ∀ c, env.classifyCall = Except.ok c →
      1 ≤ c.severity.getD 1 ∧ c.severity.getD 1 ≤ 4) :
    ({ id := 0 } : Event).severity = 1 ∧
    1 ≤ (EventProcessingService.processEvent env e media).2.severity ∧
    (EventProcessingService.processEvent env e media).2.severity ≤ 4 := by
  refine ⟨rfl, ?_⟩
  have hsev : (EventProcessingService.processEvent env e media).2.severity =
      (match env.classifyCall with
       | Except.ok c => c.severity.getD 1
       | Except.error _ => e.severity) := by
    simp [EventProcessingService.processEvent, stageBroadcast_event,
      stageCluster_severity, stageClassify_severity, stageTranscribe_severity,
      stageExtractKeyframe_severity, stageStoreMedia_severity]
  rw [hsev]
  cases hcc : env.classifyCall with
  | ok c => simpa using hc c hcc
  | error m => exact ⟨h1, h2⟩

/-- C5 witness: the amended severity-range theorem applied at a concrete
event and an all-success environment. -/
theorem c5_witness :
    ({ id := 0 } : Event).severity = 1 ∧
    1 ≤ (EventProcessingService.processEvent envAllOk
      { id := 1 } false).2.severity ∧
    (EventProcessingService.processEvent envAllOk
      { id := 1 } false).2.severity ≤ 4 :=
  c5_severity_range envAllOk { id := 1 } false (by decide) (by decide)
    (by
      intro c hcc
      cases hcc
      decide)

/-- A pipeline environment whose object-store upload raises, while keyframe
extraction and transcription succeed. -/
def envStoreFails : PipelineEnv :=
  { storeMedia := Except.error "boom",
    extractKeyframe := Except.ok (some "thumb-url"),
    transcribeMedia := Except.ok (some "some words"),
    classifyCall := Except.ok (defaultClassification "r"),
    clusterCall := Except.ok none,
    broadcastCall := Except.ok () }

/-- C1 counterexample: with media bytes present on a video event and a
failing `store_media` stage, the failure is recorded but `extract_keyframe`
and `transcribe` are NOT skipped — both stages run and complete. -/
theorem c1_counterexample :
    "store_media: boom" ∈
      (EventProcessingService.processEvent envStoreFails
        { id := 7, mediaType := "video" } true).1.errors ∧
    "extract_keyframe" ∈
      (EventProcessingService.processEvent envStoreFails
        { id := 7, mediaType := "video" } true).1.stepsCompleted ∧
    "transcribe" ∈
      (EventProcessingService.processEvent envStoreFails
        { id := 7, mediaType := "video" } true).1.stepsCompleted := by
  decide

/-- C1 amended: when media bytes are present and `store_media` fails, the
failure is recorded as one `errors` entry, but `extract_keyframe` and
`transcribe` are not skipped — they contribute to the report exactly as
usual whenever the media kind is `video` — and `classify`, `cluster` and
`broadcast` still run. -/
theorem c1_store_failure_records_error_and_continues (env : PipelineEnv)
    (e : Event) (m : String) (hfail : env.storeMedia = Except.error m) :
    ("store_media: " ++ m) ∈
      (EventProcessingService.processEvent env e true).1.errors ∧
    (EventProcessingService.processEvent env e true).1.stepsCompleted =
      (if e.mediaType = "video" then
        textStep "extract_keyframe" env.extractKeyframe else []) ++
      ((if e.mediaType = "video" then
          textStep "transcribe" env.transcribeMedia else []) ++
       (okStep "classify" env.classifyCall ++
        (clusterStep env.clusterCall ++
         okStep "broadcast" env.broadcastCall))) ∧
    (EventProcessingService.processEvent env e true).1.errors =
      ("store_media: " ++ m) ::
        ((if e.mediaType = "video" then
            errList "extract_keyframe" env.extractKeyframe else []) ++
         ((if e.mediaType = "video" then
             errList "transcribe" env.transcribeMedia else []) ++
          (errList "classify" env.classifyCall ++
           (errList "cluster" env.clusterCall ++
            errList "broadcast" env.broadcastCall)))) := by
  obtain ⟨hid, hsteps, herr⟩ := processEvent_report env e true
  have herr2 : (EventProcessingService.processEvent env e true).1.errors =
      ("store_media: " ++ m) ::
        ((if e.mediaType = "video" then
            errList "extract_keyframe" env.extractKeyframe else []) ++
         ((if e.mediaType = "video" then
             errList "transcribe" env.transcribeMedia else []) ++
          (errList "classify" env.classifyCall ++
           (errList "cluster" env.clusterCall ++
            errList "broadcast" env.broadcastCall)))) := by
    rw [herr, hfail]
    simp [errList]
  refine ⟨?_, ?_, herr2⟩
  · rw [herr2]
    exact List.mem_cons_self _ _
  · rw [hsteps, hfail]
    simp [okStep]

/-- C1 witness: the amended store-failure theorem applied at a concrete
video event and the concrete failing environment. -/
theorem c1_witness :
    "store_media: boom" ∈
      (EventProcessingService.processEvent envStoreFails
        { id := 7, mediaType := "video" } true).1.errors :=
  (c1_store_failure_records_error_and_continues envStoreFails
    { id := 7, mediaType := "video" } "boom" rfl).1

theorem mem_setCluster_eq {cid : Option Nat} {eid : Nat} {evs : List Event}
    {x : Event} (hx : x ∈ setCluster cid eid evs) (hid : x.id = eid) :
    x.cluster = cid := by
  rcases List.mem_map.mp hx with ⟨y, hy, heq⟩
  by_cases h : y.id = eid
  · rw [if_pos h] at heq
    rw [← heq]
  · rw [if_neg h] at heq
    rw [← heq] at hid
    exact absurd hid h

theorem setCluster_id {cid : Option Nat} {eid : Nat} {evs : List Event}
    {x : Event} (hx : x ∈ setCluster cid eid evs) :
    ∃ y ∈ evs, x.id = y.id := by
  rcases List.mem_map.mp hx with ⟨y, hy, heq⟩
  refine ⟨y, hy, ?_⟩
  by_cases h : y.id = eid
  · rw [if_pos h] at heq
    rw [← heq]
  · rw [if_neg h] at heq
    rw [← heq]

theorem record_setCluster_idem (x : Event) (cid : Option Nat) :
    ({ ({ x with cluster := cid } : Event) with cluster := cid } : Event) =
      { x with cluster := cid } := rfl

theorem foldl_setCluster_eq (cid : Option Nat) (ms : List Event) :
    ∀ evs : List Event,
      ms.foldl (fun acc mm => setCluster cid mm.id acc) evs =
        evs.map (fun x =>
          if ms.any (fun mm => x.id = mm.id) then
            { x with cluster := cid } else x) := by
  induction ms with
  | nil =>
      intro evs
      simp
  | cons m ms ih =>
      intro evs
      rw [List.foldl_cons, ih]
      rw [setCluster, List.map_map]
      apply List.map_congr_left
      intro x _
      by_cases h1 : x.id = m.id
      · by_cases h2 : ms.any (fun mm => x.id = mm.id) = true
        · simp [Function.comp, h1, h2, record_setCluster_idem]
        · simp [Function.comp, h1, h2]
      · by_cases h2 : ms.any (fun mm => x.id = mm.id) = true
        · simp [Function.comp, h1, h2]
        · simp [Function.comp, h1, h2]

theorem createCluster_assigns (now : Int) (db : DB) (e : Event)
    (nearby : List Event) :
    ∀ x ∈ (ClusteringService.createCluster now db e nearby).1.events,
      (x.id = e.id ∨ ∃ mm ∈ nearby, x.id = mm.id) →
      x.cluster = some db.nextClusterId := by
  intro x hx hids
  rw [ClusteringService.createCluster] at hx
  simp only at hx
  rw [foldl_setCluster_eq] at hx
  rcases List.mem_map.mp hx with ⟨y, hy, heq⟩
  rcases hids with hide | ⟨mm, hmm, hidm⟩
  · have hyid : y.id = x.id := by
      by_cases h : nearby.any (fun mm => y.id = mm.id) = true
      · rw [if_pos h] at heq
        rw [← heq]
      · rw [if_neg h] at heq
        rw [← heq]
    have hcl : y.cluster = some db.nextClusterId :=
      mem_setCluster_eq hy (by rw [hyid, hide])
    by_cases h : nearby.any (fun mm => y.id = mm.id) = true
    · rw [if_pos h] at heq
      rw [← heq]
    · rw [if_neg h] at heq
      rw [← heq]
      exact hcl
  · have hyid : y.id = x.id := by
      by_cases h : nearby.any (fun mm => y.id = mm.id) = true
      · rw [if_pos h] at heq
        rw [← heq]
      · rw [if_neg h] at heq
        rw [← heq]
    have hany : nearby.any (fun mm => y.id = mm.id) = true := by
      rw [List.any_eq_true]
      exact ⟨mm, hmm, by simp [hyid, hidm]⟩
    rw [if_pos hany] at heq
    rw [← heq]

/-- The abstract metric instantiated at zero distance: every pair of events
is co-located. -/
def distZero : Event → Event → ℚ := fun _ _ => 0

/-- C3: clustering `process_event` leaves the store untouched when the
event has no in-window neighbor within the radius; otherwise, when some
neighbor already has a cluster, the event joins the cluster of the first
such neighbor in ascending-distance order — whose distance is minimal
among all clustered neighbors — and when no neighbor has a cluster, a
fresh cluster is created containing the event and all the neighbors. -/
theorem c3_clustering_assignment (dist : Event → Event → ℚ) (now : Int)
    (db : DB) (e : Event) :
    (ClusteringService.findNearbyEvents dist
        ClusteringService.DEFAULT_RADIUS_METERS
        ClusteringService.DEFAULT_TIME_WINDOW_MINUTES now db e = [] →
      ClusteringService.processEvent dist now db e = (db, none)) ∧
    (∀ k, (ClusteringService.findNearbyEvents dist
        ClusteringService.DEFAULT_RADIUS_METERS
        ClusteringService.DEFAULT_TIME_WINDOW_MINUTES now db e).find?
          (fun x => x.cluster.isSome) = some k →
      (ClusteringService.processEvent dist now db e).2 = k.cluster ∧
      (∀ x ∈ (ClusteringService.processEvent dist now db e).1.events,
        x.id = e.id → x.cluster = k.cluster) ∧
      (∀ b ∈ ClusteringService.findNearbyEvents dist
          ClusteringService.DEFAULT_RADIUS_METERS
          ClusteringService.DEFAULT_TIME_WINDOW_MINUTES now db e,
        b.cluster.isSome = true → dist e k ≤ dist e b)) ∧
    (ClusteringService.findNearbyEvents dist
        ClusteringService.DEFAULT_RADIUS_METERS
        ClusteringService.DEFAULT_TIME_WINDOW_MINUTES now db e ≠ [] →
     (ClusteringService.findNearbyEvents dist
        ClusteringService.DEFAULT_RADIUS_METERS
        ClusteringService.DEFAULT_TIME_WINDOW_MINUTES now db e).find?
          (fun x => x.cluster.isSome) = none →
      ∃ c, (ClusteringService.processEvent dist now db e).1.clusters =
            db.clusters ++ [c] ∧
        (ClusteringService.processEvent dist now db e).2 = some c.id ∧
        c.eventCount = 1 + ((ClusteringService.findNearbyEvents dist
          ClusteringService.DEFAULT_RADIUS_METERS
          ClusteringService.DEFAULT_TIME_WINDOW_MINUTES now db e).length :
            Int) ∧
        (∀ x ∈ (ClusteringService.processEvent dist now db e).1.events,
          (x.id = e.id ∨ ∃ mm ∈ ClusteringService.findNearbyEvents dist
              ClusteringService.DEFAULT_RADIUS_METERS
              ClusteringService.DEFAULT_TIME_WINDOW_MINUTES now db e,
            x.id = mm.id) →
          x.cluster = some c.id)) := by
  refine ⟨?_, ?_, ?_⟩
  · intro h
    rw [ClusteringService.processEvent]
    simp [h]
  · intro k hfind
    have hne : ClusteringService.findNearbyEvents dist
        ClusteringService.DEFAULT_RADIUS_METERS
        ClusteringService.DEFAULT_TIME_WINDOW_MINUTES now db e ≠ [] := by
      intro h
      rw [h] at hfind
      simp at hfind
    have hk : k.cluster.isSome = true := by
      have := List.find?_some hfind
      simpa using this
    rcases Option.isSome_iff_exists.mp hk with ⟨cid, hcid⟩
    have hex : ClusteringService.findExistingCluster
        (ClusteringService.findNearbyEvents dist
          ClusteringService.DEFAULT_RADIUS_METERS
          ClusteringService.DEFAULT_TIME_WINDOW_MINUTES now db e) =
        some cid := by
      rw [ClusteringService.findExistingCluster, hfind]
      simp [hcid]
    have hres : ClusteringService.processEvent dist now db e =
        (ClusteringService.addToCluster now db e cid, some cid) := by
      rw [ClusteringService.processEvent]
      simp [List.isEmpty_iff, hne, hex]
    refine ⟨by rw [hres, hcid], ?_, ?_⟩
    · intro x hx hid
      rw [hres] at hx
      rw [ClusteringService.addToCluster] at hx
      simp only at hx
      rw [hcid]
      exact mem_setCluster_eq hx hid
    · intro b hb hpb
      exact find?_key_min (fun x => dist e x) (fun x => x.cluster.isSome) k _
        (sorted_sortByKey _ _) hfind b hb hpb
  · intro hne hnone
    have hex : ClusteringService.findExistingCluster
        (ClusteringService.findNearbyEvents dist
          ClusteringService.DEFAULT_RADIUS_METERS
          ClusteringService.DEFAULT_TIME_WINDOW_MINUTES now db e) =
        none := by
      rw [ClusteringService.findExistingCluster, hnone]
      simp
    have hres : ClusteringService.processEvent dist now db e =
        ((ClusteringService.createCluster now db e
            (ClusteringService.findNearbyEvents dist
              ClusteringService.DEFAULT_RADIUS_METERS
              ClusteringService.DEFAULT_TIME_WINDOW_MINUTES now db e)).1,
         some (ClusteringService.createCluster now db e
            (ClusteringService.findNearbyEvents dist
              ClusteringService.DEFAULT_RADIUS_METERS
              ClusteringService.DEFAULT_TIME_WINDOW_MINUTES now db e)).2.id) := by
      rw [ClusteringService.processEvent]
      simp [List.isEmpty_iff, hne, hex]
    refine ⟨(ClusteringService.createCluster now db e
      (ClusteringService.findNearbyEvents dist
        ClusteringService.DEFAULT_RADIUS_METERS
        ClusteringService.DEFAULT_TIME_WINDOW_MINUTES now db e)).2,
      ?_, ?_, ?_, ?_⟩
    · rw [hres]
      rfl
    · rw [hres]
    · rfl
    · intro x hx hids
      rw [hres] at hx
      exact createCluster_assigns now db e _ x hx hids

/-- C3 witness: the no-neighbor branch applied at an empty store — the
clustering call returns the store unchanged and no cluster. -/
theorem c3_witness :
    ClusteringService.processEvent distZero 0
      { events := [], clusters := [], nextClusterId := 0 } { id := 1 } =
      ({ events := [], clusters := [], nextClusterId := 0 }, none) :=
  (c3_clustering_assignment distZero 0
    { events := [], clusters := [], nextClusterId := 0 } { id := 1 }).1
    (by decide)

/-- The escalation invariant of §8.4 of the spec: five or more member
events force Critical severity; three or four force at least High. -/
def clusterInv (c : EventCluster) : Prop :=
  (5 ≤ c.eventCount → c.computedSeverity = 4) ∧
  (3 ≤ c.eventCount ∧ c.eventCount ≤ 4 → 3 ≤ c.computedSeverity)

theorem clusterInv_of (c : EventCluster) (a b : Int) (hb : 3 ≤ b)
    (hsev : c.computedSeverity =
      if c.eventCount ≥ 5 then 4 else if c.eventCount ≥ 3 then b else a) :
    clusterInv c := by
  constructor
  · intro h5
    rw [hsev, if_pos (by omega : c.eventCount ≥ 5)]
  · rintro ⟨h3, h4⟩
    rw [hsev, if_neg (by omega : ¬ c.eventCount ≥ 5),
      if_pos (by omega : c.eventCount ≥ 3)]
    exact hb

theorem mem_updateCluster {cid : Nat} {f : EventCluster → EventCluster}
    {cs : List EventCluster} {c : EventCluster}
    (h : c ∈ updateCluster cid f cs) : ∃ c0 ∈ cs, c = c0 ∨ c = f c0 := by
  rcases List.mem_map.mp h with ⟨c0, hc0, heq⟩
  by_cases h1 : c0.id = cid
  · rw [if_pos h1] at heq
    exact ⟨c0, hc0, Or.inr heq.symm⟩
  · rw [if_neg h1] at heq
    exact ⟨c0, hc0, Or.inl heq.symm⟩

/-- C4: after each cluster-mutating operation of the clustering service —
`create_cluster`, `add_to_cluster`, `recalculate_cluster` — every stored
cluster satisfies: `event_count ≥ 5` implies `computed_severity = 4`
(Critical), and `event_count ∈ [3,4]` implies `computed_severity ≥ 3`
(High), assuming the untouched clusters satisfied it before. -/
theorem c4_cluster_severity_invariant (now : Int) (db : DB) (e : Event)
    (nearby : List Event) (cid : Nat)
    (hdb : ∀ c ∈ db.clusters, clusterInv c) :
    (∀ c ∈ (ClusteringService.createCluster now db e nearby).1.clusters,
      clusterInv c) ∧
    (∀ c ∈ (ClusteringService.addToCluster now db e cid).clusters,
      clusterInv c) ∧
    (∀ c ∈ (ClusteringService.recalculateCluster db cid).clusters,
      clusterInv c) := by
  refine ⟨?_, ?_, ?_⟩
  · intro c hc
    rw [ClusteringService.createCluster] at hc
    simp only [List.mem_append, List.mem_singleton] at hc
    rcases hc with hc | rfl
    · exact hdb c hc
    · refine clusterInv_of _ e.severity (max e.severity 3)
        (le_max_right _ _) ?_
      simp [ClusteringService.ESCALATION_THRESHOLD_CRITICAL,
        ClusteringService.ESCALATION_THRESHOLD_HIGH,
        SeverityChoices.CRITICAL, SeverityChoices.HIGH]
  · intro c hc
    rw [ClusteringService.addToCluster] at hc
    simp only at hc
    rcases mem_updateCluster hc with ⟨c0, hc0, heq | heq⟩
    · rw [heq]
      exact hdb c0 hc0
    · rw [heq]
      refine clusterInv_of _ c0.computedSeverity (max c0.computedSeverity 3)
        (le_max_right _ _) ?_
      simp [ClusteringService.ESCALATION_THRESHOLD_CRITICAL,
        ClusteringService.ESCALATION_THRESHOLD_HIGH,
        SeverityChoices.CRITICAL, SeverityChoices.HIGH]
  · intro c hc
    rw [ClusteringService.recalculateCluster] at hc
    by_cases h0 : ((db.events.filter
        (fun x => x.cluster = some cid)).length : Int) = 0
    · rw [if_pos h0] at hc
      simp only [List.mem_filter] at hc
      exact hdb c hc.1
    · rw [if_neg h0] at hc
      simp only at hc
      rcases mem_updateCluster hc with ⟨c0, hc0, heq | heq⟩
      · rw [heq]
        exact hdb c0 hc0
      · rw [heq]
        refine clusterInv_of _
          (maxMemberSeverity (db.events.filter
            (fun x => x.cluster = some cid))) 3 (le_refl 3) ?_
        simp [ClusteringService.ESCALATION_THRESHOLD_CRITICAL,
          ClusteringService.ESCALATION_THRESHOLD_HIGH,
          SeverityChoices.CRITICAL, SeverityChoices.HIGH]

/-- C4 witness: the invariant theorem applied at an empty store — the
cluster freshly created from one event and two neighbors satisfies the
escalation invariant. -/
theorem c4_witness :
    clusterInv (ClusteringService.createCluster 0
      { events := [], clusters := [], nextClusterId := 0 } { id := 1 }
      [{ id := 2 }, { id := 3 }]).2 :=
  (c4_cluster_severity_invariant 0
    { events := [], clusters := [], nextClusterId := 0 } { id := 1 }
    [{ id := 2 }, { id := 3 }] 0 (by simp)).1
    (ClusteringService.createCluster 0
      { events := [], clusters := [], nextClusterId := 0 } { id := 1 }
      [{ id := 2 }, { id := 3 }]).2 (by decide)

theorem checkAndAwardBadges_reportsVerified (p : UserProfile) :
    (GamificationService.checkAndAwardBadges p).reportsVerified =
      p.reportsVerified := by
  rw [GamificationService.checkAndAwardBadges]
  split <;> rfl

theorem checkAndAwardBadges_reputation (p : UserProfile) :
    (GamificationService.checkAndAwardBadges p).reputationScore =
      p.reputationScore := by
  rw [GamificationService.checkAndAwardBadges]
  split <;> rfl

theorem checkAndAwardBadges_badges_mono {b : String} (p : UserProfile)
    (hb : b ∈ p.badges) :
    b ∈ (GamificationService.checkAndAwardBadges p).badges := by
  rw [GamificationService.checkAndAwardBadges]
  split
  · exact hb
  · exact List.mem_append_left _ hb

theorem awardSpecialBadge_reportsVerified (p : UserProfile) (bid : String) :
    (GamificationService.awardSpecialBadge p bid).reportsVerified =
      p.reportsVerified := by
  rw [GamificationService.awardSpecialBadge]
  split
  · rfl
  · split <;> rfl

theorem awardSpecialBadge_reputation (p : UserProfile) (bid : String) :
    (GamificationService.awardSpecialBadge p bid).reputationScore =
      p.reputationScore := by
  rw [GamificationService.awardSpecialBadge]
  split
  · rfl
  · split <;> rfl

theorem awardSpecialBadge_emergency_mem (p : UserProfile) :
    "emergency_responder" ∈
      (GamificationService.awardSpecialBadge p "emergency_responder").badges := by
  rw [GamificationService.awardSpecialBadge]
  rw [if_neg (by decide :
    ¬(!badgeDefinitionIds.contains "emergency_responder") = true)]
  by_cases h : p.badges.contains "emergency_responder" = true
  · rw [if_pos h]
    simpa using h
  · rw [if_neg h]
    refine List.mem_append_right _ ?_
    simp only [badgeUnion, List.mem_filter, List.mem_singleton]
    simp [Bool.not_eq_true] at h
    simp [h]

theorem onReportVerified_reportsVerified (p : UserProfile) (crit : Bool) :
    (GamificationService.onReportVerified p crit).reportsVerified =
      p.reportsVerified := by
  rw [GamificationService.onReportVerified]
  simp only [GamificationService.addReputation,
    checkAndAwardBadges_reportsVerified]
  cases crit
  · rfl
  · simp [awardSpecialBadge_reportsVerified]

theorem onReportVerified_reputation (p : UserProfile) (crit : Bool) :
    (GamificationService.onReportVerified p crit).reputationScore =
      p.reputationScore + (10 + (if crit then 25 else 0)) := by
  rw [GamificationService.onReportVerified]
  simp only [GamificationService.addReputation,
    checkAndAwardBadges_reputation]
  cases crit
  · rfl
  · simp [awardSpecialBadge_reputation]

theorem onReportVerified_emergency (p : UserProfile) :
    "emergency_responder" ∈
      (GamificationService.onReportVerified p true).badges := by
  rw [GamificationService.onReportVerified]
  simp only [GamificationService.addReputation]
  refine checkAndAwardBadges_badges_mono _ ?_
  refine checkAndAwardBadges_badges_mono _ ?_
  show "emergency_responder" ∈
    (if true = true then
      GamificationService.awardSpecialBadge p "emergency_responder"
     else p).badges
  simp only [if_pos rfl]
  exact awardSpecialBadge_emergency_mem p

/-- C6: a staff status-update command that moves an event with a non-null
reporter into `verified` (from a non-verified status) increments the
reporter profile's `reports_verified` by exactly one and its
`reputation_score` by exactly 10 — or by exactly 35 when the event's
severity was Critical at command time, in which case the
`emergency_responder` marker is also present afterwards. -/
theorem c6_verification_rewards (now : Int) (auth : Auth) (e : Event)
    (p : UserProfile) (st : String) (rid : Nat)
    (hstaff : auth.isStaff = true) (hrep : e.reporterId = some rid)
    (hst : st = "verified") (hne : e.status ≠ "verified") :
    ∃ p', (updateEventStatus now auth e (some p) st).profile = some p' ∧
      p'.reportsVerified = p.reportsVerified + 1 ∧
      p'.reputationScore = p.reputationScore +
        (if e.severity = 4 then 35 else 10) ∧
      (e.severity = 4 → "emergency_responder" ∈ p'.badges) := by
  have hprof : (updateEventStatus now auth e (some p) st).profile =
      some (GamificationService.onReportVerified
        { p with reportsVerified := p.reportsVerified + 1 }
        (decide (e.severity = SeverityChoices.CRITICAL))) := by
    rw [updateEventStatus]
    rw [if_neg (by simp [hstaff])]
    simp only [hrep, hst]
    simp [hne]
  refine ⟨_, hprof, ?_, ?_, ?_⟩
  · rw [onReportVerified_reportsVerified]
  · rw [onReportVerified_reputation]
    by_cases hc : e.severity = 4
    · rw [if_pos hc]
      have : decide (e.severity = SeverityChoices.CRITICAL) = true := by
        simp [SeverityChoices.CRITICAL, hc]
      rw [this]
      simp
    · rw [if_neg hc]
      have : decide (e.severity = SeverityChoices.CRITICAL) = false := by
        simp [SeverityChoices.CRITICAL, hc]
      rw [this]
      simp
  · intro hc
    have : decide (e.severity = SeverityChoices.CRITICAL) = true := by
      simp [SeverityChoices.CRITICAL, hc]
    rw [this]
    exact onReportVerified_emergency _

/-- C6 witness: the verification-reward theorem at a concrete Critical
event, reporter and operator. -/
theorem c6_witness :
    ∃ p', (updateEventStatus 5 { userId := 9, isStaff := true }
        { id := 1, reporterId := some 3, severity := 4 }
        (some { userId := 3 }) "verified").profile = some p' ∧
      p'.reportsVerified = ({ userId := 3 } : UserProfile).reportsVerified + 1 ∧
      p'.reputationScore = ({ userId := 3 } : UserProfile).reputationScore +
        (if ({ id := 1, reporterId := some 3, severity := 4 } :
          Event).severity = 4 then 35 else 10) ∧
      (({ id := 1, reporterId := some 3, severity := 4 } :
          Event).severity = 4 → "emergency_responder" ∈ p'.badges) :=
  c6_verification_rewards 5 { userId := 9, isStaff := true }
    { id := 1, reporterId := some 3, severity := 4 } { userId := 3 }
    "verified" 3 rfl rfl rfl (by decide)

/-- C7 counterexample: issuing the same staff status command twice does NOT
leave the event's stored fields unchanged — the second call re-stamps
`reviewed_at` with its own (later) time. -/
theorem c7_counterexample :
    (updateEventStatus 1 { userId := 9, isStaff := true }
        (updateEventStatus 0 { userId := 9, isStaff := true }
          { id := 1 } none "reviewing").event none "reviewing").event ≠
      (updateEventStatus 0 { userId := 9, isStaff := true }
        { id := 1 } none "reviewing").event := by
  decide

/-- C7 amended: repeating the same staff status command is idempotent on
every stored event field except `reviewed_at`, which the second call
re-stamps with its own time; the reporter profile is not changed again by
the second call, and each of the two calls publishes exactly one
`status_change` fan-out message. -/
theorem c7_repeat_status_update (t1 t2 : Int) (auth : Auth) (e : Event)
    (profile : Option UserProfile) (st : String)
    (hstaff : auth.isStaff = true) :
    (updateEventStatus t2 auth
        (updateEventStatus t1 auth e profile st).event
        (updateEventStatus t1 auth e profile st).profile st).event =
      { (updateEventStatus t1 auth e profile st).event with
          reviewedAt := some t2 } ∧
    (updateEventStatus t2 auth
        (updateEventStatus t1 auth e profile st).event
        (updateEventStatus t1 auth e profile st).profile st).profile =
      (updateEventStatus t1 auth e profile st).profile ∧
    (updateEventStatus t1 auth e profile st).published = ["status_change"] ∧
    (updateEventStatus t2 auth
        (updateEventStatus t1 auth e profile st).event
        (updateEventStatus t1 auth e profile st).profile st).published =
      ["status_change"] := by
  have hstatus : (updateEventStatus t1 auth e profile st).event.status = st := by
    rw [updateEventStatus, if_neg (by simp [hstaff])]
  have hrep : (updateEventStatus t1 auth e profile st).event.reporterId =
      e.reporterId := by
    rw [updateEventStatus, if_neg (by simp [hstaff])]
  have hwv : (decide (st = "verified") &&
      decide ((updateEventStatus t1 auth e profile st).event.status ≠
        "verified")) = false := by
    rw [hstatus]
    by_cases h : st = "verified" <;> simp [h]
  have hwr : (decide (st = "false_alarm") &&
      decide ((updateEventStatus t1 auth e profile st).event.status ≠
        "false_alarm")) = false := by
    rw [hstatus]
    by_cases h : st = "false_alarm" <;> simp [h]
  have hev : (updateEventStatus t1 auth e profile st).event =
      { e with
        status := st,
        reviewedById := some auth.userId,
        reviewedAt := some t1 } := by
    rw [updateEventStatus, if_neg (by simp [hstaff])]
  refine ⟨?_, ?_, ?_, ?_⟩
  · rw [updateEventStatus, if_neg (by simp [hstaff])]
    rw [hev]
  · conv_lhs => rw [updateEventStatus]
    rw [if_neg (by simp [hstaff])]
    simp only [hwv, hwr, Bool.false_eq_true, if_false]
    cases hr : (updateEventStatus t1 auth e profile st).event.reporterId with
    | none => simp
    | some r =>
        cases hp : (updateEventStatus t1 auth e profile st).profile with
        | none => simp
        | some q => simp
  · rw [updateEventStatus, if_neg (by simp [hstaff])]
  · rw [updateEventStatus, if_neg (by simp [hstaff])]

/-- C7 witness: the amended repeat-command theorem at a concrete event and
operator, showing the second call's event differs only in `reviewed_at`
and both calls publish one `status_change` message. -/
theorem c7_witness :
    (updateEventStatus 1 { userId := 9, isStaff := true }
        (updateEventStatus 0 { userId := 9, isStaff := true }
          { id := 1 } none "reviewing").event
        (updateEventStatus 0 { userId := 9, isStaff := true }
          { id := 1 } none "reviewing").profile "reviewing").event =
      { (updateEventStatus 0 { userId := 9, isStaff := true }
          { id := 1 } none "reviewing").event with reviewedAt := some 1 } ∧
    (updateEventStatus 1 { userId := 9, isStaff := true }
        (updateEventStatus 0 { userId := 9, isStaff := true }
          { id := 1 } none "reviewing").event
        (updateEventStatus 0 { userId := 9, isStaff := true }
          { id := 1 } none "reviewing").profile "reviewing").profile =
      (updateEventStatus 0 { userId := 9, isStaff := true }
        { id := 1 } none "reviewing").profile ∧
    (updateEventStatus 0 { userId := 9, isStaff := true }
        { id := 1 } none "reviewing").published = ["status_change"] ∧
    (updateEventStatus 1 { userId := 9, isStaff := true }
        (updateEventStatus 0 { userId := 9, isStaff := true }
          { id := 1 } none "reviewing").event
        (updateEventStatus 0 { userId := 9, isStaff := true }
          { id := 1 } none "reviewing").profile "reviewing").published =
      ["status_change"] :=
  c7_repeat_status_update 0 1 { userId := 9, isStaff := true } { id := 1 }
    none "reviewing" rfl

/-- C8 counterexample: the first SSE frame is not the claimed byte string —
`json.dumps` emits a space after the colon, so the actual payload is
`\x7b"status": "connected"\x7d`, not `\x7b"status":"connected"\x7d`. -/
theorem c8_counterexample :
    (eventStream [])[0]? ≠
      some "event: connected\ndata: \x7b\"status\":\"connected\"\x7d\n\n" := by
  decide

/-- C8 amended: the first frame of every streaming subscription is exactly
`event: connected` + newline + `data: \x7b"status": "connected"\x7d` (with
the JSON encoder's space after the colon) + two newlines, and the `i`-th
published bus message is delivered verbatim as the `(i+1)`-th frame
`event: event_update\ndata: <json>\n\n`, in publication order. -/
theorem c8_stream_frames (msgs : List String) :
    (eventStream msgs)[0]? =
      some "event: connected\ndata: \x7b\"status\": \"connected\"\x7d\n\n" ∧
    ∀ i : Nat, ∀ d : String, msgs[i]? = some d →
      (eventStream msgs)[i + 1]? =
        some ("event: event_update\ndata: " ++ d ++ "\n\n") := by
  constructor
  · show (connectedFrame :: msgs.map updateFrame)[0]? = _
    rw [List.getElem?_cons_zero]
    decide
  · intro i d hd
    show (connectedFrame :: msgs.map updateFrame)[i + 1]? = _
    rw [List.getElem?_cons_succ, List.getElem?_map, hd]
    rfl

/-- C8 witness: the amended frame theorem at a one-message channel. -/
theorem c8_witness :
    (eventStream ["\x7b\"type\": \"new_event\"\x7d"])[1]? =
      some ("event: event_update\ndata: " ++
        "\x7b\"type\": \"new_event\"\x7d" ++ "\n\n") :=
  (c8_stream_frames ["\x7b\"type\": \"new_event\"\x7d"]).2 0
    "\x7b\"type\": \"new_event\"\x7d" rfl

/-- The task-layer and service-layer neighbor queries share the same filter
(last 30 minutes, within 100 m, excluding the event itself); they differ
only in the scan order. -/
theorem serviceNearby_eq_sorted_taskBase (dist : Event → Event → ℚ)
    (now : Int) (db : DB) (e : Event) :
    ClusteringService.findNearbyEvents dist
      ClusteringService.DEFAULT_RADIUS_METERS
      ClusteringService.DEFAULT_TIME_WINDOW_MINUTES now db e =
    sortByKey (fun x => dist e x)
      (((db.events.filter
          (fun x => decide (now - 30 * 60 ≤ x.createdAt) &&
                    decide (dist e x ≤ (100 : ℚ)))).filter
        (fun x => decide (x.id ≠ e.id)))) := by
  rw [ClusteringService.findNearbyEvents]
  norm_num [ClusteringService.DEFAULT_RADIUS_METERS,
    ClusteringService.DEFAULT_TIME_WINDOW_MINUTES]

/-- The add-to-existing-cluster updates of the Celery task are literally
those of `ClusteringService.add_to_cluster`. -/
theorem taskAdd_eq_serviceAdd (now : Int) (db : DB) (e : Event) (cid : Nat) :
    taskAddToCluster now db e cid = ClusteringService.addToCluster now db e cid := rfl

/-- Concrete three-event scene for the clustering comparison: one fresh
event and two unclustered in-window neighbors at the same location. -/
def exDbC10 : DB :=
  { events := [{ id := 1, createdAt := 1000, severity := 1 },
               { id := 2, createdAt := 999 },
               { id := 3, createdAt := 998 }],
    clusters := [], nextClusterId := 0 }

/-- C10 counterexample: on the same three-event scene the service layer
creates the new cluster with escalated severity High (3), while the task
layer creates it with the event's own severity Low (1) — the two
implementations do not produce the same cluster aggregates. -/
theorem c10_counterexample :
    ((ClusteringService.processEvent distZero 1000 exDbC10
        { id := 1, createdAt := 1000, severity := 1 }).1.clusters.map
      (fun c => c.computedSeverity)) = [3] ∧
    ((clusterEvents distZero 1000 exDbC10
        { id := 1, createdAt := 1000, severity := 1 }).clusters.map
      (fun c => c.computedSeverity)) = [1] := by
  decide

/-- C10 amended: the two clustering implementations trigger on exactly the
same neighborhoods and agree on event counts; when they find the same
existing cluster they perform identical updates; but the task layer scans
neighbors newest-first instead of closest-first (so the found cluster may
differ), and on new-cluster creation the task layer uses the event's own
severity with no escalation while the service escalates at counts 3 and 5. -/
theorem c10_task_vs_service_clustering (dist : Event → Event → ℚ)
    (now : Int) (db : DB) (e : Event) :
    (taskNearbyEvents dist now db e = [] ↔
      ClusteringService.findNearbyEvents dist
        ClusteringService.DEFAULT_RADIUS_METERS
        ClusteringService.DEFAULT_TIME_WINDOW_MINUTES now db e = []) ∧
    (taskNearbyEvents dist now db e = [] →
      clusterEvents dist now db e = db ∧
      ClusteringService.processEvent dist now db e = (db, none)) ∧
    (∀ cid,
      ClusteringService.findExistingCluster
        (taskNearbyEvents dist now db e) = some cid →
      ClusteringService.findExistingCluster
        (ClusteringService.findNearbyEvents dist
          ClusteringService.DEFAULT_RADIUS_METERS
          ClusteringService.DEFAULT_TIME_WINDOW_MINUTES now db e) =
        some cid →
      clusterEvents dist now db e =
        ClusteringService.addToCluster now db e cid ∧
      ClusteringService.processEvent dist now db e =
        (ClusteringService.addToCluster now db e cid, some cid)) ∧
    (taskNearbyEvents dist now db e ≠ [] →
     ClusteringService.findExistingCluster
       (taskNearbyEvents dist now db e) = none →
     ClusteringService.findExistingCluster
       (ClusteringService.findNearbyEvents dist
         ClusteringService.DEFAULT_RADIUS_METERS
         ClusteringService.DEFAULT_TIME_WINDOW_MINUTES now db e) = none →
      ∃ cT cS,
        (clusterEvents dist now db e).clusters = db.clusters ++ [cT] ∧
        (ClusteringService.processEvent dist now db e).1.clusters =
          db.clusters ++ [cS] ∧
        cT.eventCount = cS.eventCount ∧
        cT.computedSeverity = e.severity ∧
        cS.computedSeverity =
          (if cS.eventCount ≥ 5 then 4
           else if cS.eventCount ≥ 3 then max e.severity 3
           else e.severity)) := by
  have hbase := serviceNearby_eq_sorted_taskBase dist now db e
  have hlen : (taskNearbyEvents dist now db e).length =
      (ClusteringService.findNearbyEvents dist
        ClusteringService.DEFAULT_RADIUS_METERS
        ClusteringService.DEFAULT_TIME_WINDOW_MINUTES now db e).length := by
    rw [hbase, taskNearbyEvents, length_sortByKey, length_sortByKey]
  have hiff : taskNearbyEvents dist now db e = [] ↔
      ClusteringService.findNearbyEvents dist
        ClusteringService.DEFAULT_RADIUS_METERS
        ClusteringService.DEFAULT_TIME_WINDOW_MINUTES now db e = [] := by
    rw [hbase, taskNearbyEvents, sortByKey_eq_nil_iff, sortByKey_eq_nil_iff]
  refine ⟨hiff, ?_, ?_, ?_⟩
  · intro h
    constructor
    · rw [clusterEvents]
      simp [h]
    · rw [ClusteringService.processEvent]
      simp [List.isEmpty_iff, hiff.mp h]
  · intro cid hT hS
    have hTne : taskNearbyEvents dist now db e ≠ [] := by
      intro h
      rw [h] at hT
      simp [ClusteringService.findExistingCluster] at hT
    have hSne : ClusteringService.findNearbyEvents dist
        ClusteringService.DEFAULT_RADIUS_METERS
        ClusteringService.DEFAULT_TIME_WINDOW_MINUTES now db e ≠ [] := by
      intro h
      exact hTne (hiff.mpr h)
    constructor
    · rw [clusterEvents]
      simp only [List.isEmpty_iff]
      rw [if_neg hTne, hT]
      exact taskAdd_eq_serviceAdd now db e cid
    · rw [ClusteringService.processEvent]
      simp only [List.isEmpty_iff]
      rw [if_neg hSne, hS]
  · intro hTne hT hS
    have hSne : ClusteringService.findNearbyEvents dist
        ClusteringService.DEFAULT_RADIUS_METERS
        ClusteringService.DEFAULT_TIME_WINDOW_MINUTES now db e ≠ [] := by
      intro h
      exact hTne (hiff.mpr h)
    have hresT : clusterEvents dist now db e =
        taskCreateCluster now db e (taskNearbyEvents dist now db e) := by
      rw [clusterEvents]
      simp only [List.isEmpty_iff]
      rw [if_neg hTne, hT]
    have hresS : ClusteringService.processEvent dist now db e =
        ((ClusteringService.createCluster now db e
            (ClusteringService.findNearbyEvents dist
              ClusteringService.DEFAULT_RADIUS_METERS
              ClusteringService.DEFAULT_TIME_WINDOW_MINUTES now db e)).1,
         some (ClusteringService.createCluster now db e
            (ClusteringService.findNearbyEvents dist
              ClusteringService.DEFAULT_RADIUS_METERS
              ClusteringService.DEFAULT_TIME_WINDOW_MINUTES now db e)).2.id) := by
      rw [ClusteringService.processEvent]
      simp only [List.isEmpty_iff]
      rw [if_neg hSne, hS]
    refine ⟨{ id := db.nextClusterId,
              centroidX := e.locX,
              centroidY := e.locY,
              radiusMeters := 100,
              eventCount :=
                ((taskNearbyEvents dist now db e).length : Int) + 1,
              firstEventAt := now,
              lastEventAt := now,
              computedSeverity := e.severity },
      (ClusteringService.createCluster now db e
        (ClusteringService.findNearbyEvents dist
          ClusteringService.DEFAULT_RADIUS_METERS
          ClusteringService.DEFAULT_TIME_WINDOW_MINUTES now db e)).2,
      ?_, ?_, ?_, ?_, ?_⟩
    · rw [hresT]
      rfl
    · rw [hresS]
      rfl
    · show ((taskNearbyEvents dist now db e).length : Int) + 1 =
        1 + ((ClusteringService.findNearbyEvents dist
          ClusteringService.DEFAULT_RADIUS_METERS
          ClusteringService.DEFAULT_TIME_WINDOW_MINUTES now db e).length : Int)
      rw [hlen]
      omega
    · rfl
    · simp [ClusteringService.createCluster,
        ClusteringService.ESCALATION_THRESHOLD_CRITICAL,
        ClusteringService.ESCALATION_THRESHOLD_HIGH,
        SeverityChoices.CRITICAL, SeverityChoices.HIGH]

/-- C10 witness: the comparison theorem's no-neighbor branch at an empty
store — both implementations leave the store unchanged. -/
theorem c10_witness :
    clusterEvents distZero 0
      { events := [], clusters := [], nextClusterId := 0 } { id := 1 } =
      { events := [], clusters := [], nextClusterId := 0 } ∧
    ClusteringService.processEvent distZero 0
      { events := [], clusters := [], nextClusterId := 0 } { id := 1 } =
      ({ events := [], clusters := [], nextClusterId := 0 }, none) :=
  (c10_task_vs_service_clustering distZero 0
    { events := [], clusters := [], nextClusterId := 0 } { id := 1 }).2.1
    (by decide)
